import Mathlib

/-! HDMI shield host library: a shallow embedding of `hdmi_shield.cpp`.

The definitions below follow `arduino/source/hdmi_shield.hpp` and
`arduino/source/hdmi_shield.cpp` line by line.  Machine integers are natural
numbers, reduced modulo `2 ^ w` where the source truncates.  The places where
the source leaves the hardware access open (the literals `false` and `true`
under a `To-do` comment) are read from a `Link`; what the compilation target
fixes (signedness of `char`, pointer width, where a buffer lives) is read from
a `Machine`.
-/

namespace HDMIShield

/-! ## Data model (`hdmi_shield.hpp`) -/

/-- Error kinds, `enum Error` (hpp 10-21). -/
inductive Error
  | NONE
  | NOT_CONNECTED
  | UNRESPONSIVE
  | PACKET_OVERFLOW
  | RETRIES_EXCEEDED
  | PACKET_MALFORMED
  | OUT_OF_MEMORY
  deriving DecidableEq

/-- Enumerator values of `enum Error`: `NONE = 0`, then counting up. -/
def Error.toNat : Error → Nat
  | .NONE => 0
  | .NOT_CONNECTED => 1
  | .UNRESPONSIVE => 2
  | .PACKET_OVERFLOW => 3
  | .RETRIES_EXCEEDED => 4
  | .PACKET_MALFORMED => 5
  | .OUT_OF_MEMORY => 6

/-- Truth value of an `Error` in `if(error)`: non-zero. -/
def Error.isSet (e : Error) : Bool := e.toNat != 0

/-- Colour, four 8-bit channels (hpp 24-29). -/
structure Colour where
  red : Nat
  green : Nat
  blue : Nat
  alpha : Nat
  deriving DecidableEq

/-- Point, two `uint16_t` coordinates (hpp 32-35). -/
structure Point where
  x : Nat
  y : Nat
  deriving DecidableEq

/-- Line between two points (hpp 38-41). -/
structure Line where
  start : Point
  finish : Point
  deriving DecidableEq

/-- Rectangle, `uint16_t` width and height (hpp 44-47). -/
structure Rectangle where
  width : Nat
  height : Nat
  deriving DecidableEq

/-- Box, a rectangle at an origin (hpp 51-54). -/
structure Box where
  origin : Point
  area : Rectangle
  deriving DecidableEq

/-- Surface handle, `uint16_t ID` and its size (hpp 58-61). -/
structure Surface where
  ID : Nat
  area : Rectangle
  deriving DecidableEq

/-- Font handle, `typedef uint8_t Font` (hpp 64). -/
abbrev Font := Nat

/-! ## Opcodes (`enum Code`, cpp 5-37) -/

namespace Code

def RESET : Nat := 0x01
def RETRANSMIT : Nat := 0x02
def DISPLAY_CONNECTED : Nat := 0x10
def LOAD_FONT : Nat := 0x30
def FREE_FONT : Nat := 0x3F
def CREATE_SURFACE : Nat := 0x60
def CREATE_TEXT_SURFACE : Nat := 0x61
def BLIT_SURFACE : Nat := 0x61
def FREE_SURFACE : Nat := 0x6F
def DRAW_POINT : Nat := 0x80
def DRAW_LINE : Nat := 0x81
def DRAW_BOX : Nat := 0x82
def RENDER : Nat := 0xF0
def CLEAR : Nat := 0xF1
def UPDATE : Nat := 0xF2

end Code

/-! ## The hardware seam and the compilation target -/

/-- Argument of a variadic call after the default promotions: an integer, or
a pointer to a NUL-terminated string (given by the bytes it points at). -/
inductive Arg
  | int (value : Nat)
  | str (chars : List Nat)
  deriving DecidableEq

/-- What the source leaves open about the board.  Each field stands where the
source has a literal under a `To-do` (or a bare `if(false)`):
* `absent`: the board-presence check of `awaitReady` (cpp 53, written `false`);
* `ready index`: the sample of the ready signal taken in poll `index`
  (cpp 61, written `true`);
* `unacknowledged`: the acknowledgement wait of `transmit` gave up
  (cpp 125, written `false`);
* `malformed`: the board reported a malformed packet (cpp 130, written `false`). -/
structure Link where
  absent : Bool
  ready : Nat → Bool
  unacknowledged : Bool
  malformed : Bool

/-- The link exactly as the source is written today. -/
def Link.asWritten : Link :=
  { absent := false, ready := fun _ => true, unacknowledged := false, malformed := false }

/-- What the compilation target fixes.
* `charSigned`: whether plain `char` is signed (it is with avr-gcc);
* `ptrBits`: width of a data pointer, pointers being machine integers;
* `bufferAddr`: address of the local `buffer` of `transmit`, below
  `2 ^ ptrBits`;
* `memory`: the byte found at each data address, for the bytes that
  `vsnprintf` did not write;
* `vaList`: the `va_list` object of `transcieve`, read as an `int`;
* `beyond`: what a `va_arg` finds after the last argument really passed. -/
structure Machine where
  charSigned : Bool
  ptrBits : Nat
  bufferAddr : Nat
  memory : Nat → Nat
  vaList : Nat
  beyond : List Arg

/-- An 8-bit AVR board (Arduino Uno): signed `char`, 16-bit pointers, the
buffer near the top of the 2 KiB of SRAM. -/
def uno : Machine :=
  { charSigned := true, ptrBits := 16, bufferAddr := 0x08D0, memory := fun _ => 0,
    vaList := 0x08F2, beyond := [] }

/-! ## Transport readiness gate (`awaitReady`, cpp 50-69) -/

/-- Result of `awaitReady`, together with the number of polls it made. -/
structure Ready where
  error : Error
  polls : Nat
  deriving DecidableEq

/-- The loop `for(uint16_t index = 0; index < 100; index += 1)` of cpp 58-66.
`remaining` is the number of iterations left, `100 - index`; when none is left
the loop is over and cpp 68 returns `UNRESPONSIVE`. -/
def pollLoop (link : Link) : Nat → Nat → Ready
  | 0, index => { error := .UNRESPONSIVE, polls := index }
  | remaining + 1, index =>
    if link.ready index then { error := .NONE, polls := index + 1 }
    else pollLoop link remaining (index + 1)

/-- Function `Error awaitReady()`, cpp 50-69. -/
def awaitReady (link : Link) : Ready :=
  if link.absent then { error := .NOT_CONNECTED, polls := 0 }
  else pollLoop link 100 0

/-! ## Packet encoder -/

/-- Decimal digits of `n` as character codes, the output of `%u`. -/
def decimal (n : Nat) : List Nat := (Nat.toDigits 10 n).map Char.toNat

/-- The bytes of a C string: everything before the first NUL. -/
def cstring (chars : List Nat) : List Nat := chars.takeWhile (fun b => b != 0)

/-- Library function `strlen`: the length of a C string. -/
def strlen (chars : List Nat) : Nat := (cstring chars).length

/-- The complete output of the `printf` family for the conversions the source
uses: `%c` writes its `int` argument converted to `unsigned char`, `%u` writes
its argument in decimal, `%s` writes the string up to its NUL, any other
character is copied.  A conversion whose argument is missing or of the other
kind is undefined in C; here it consumes the argument and writes nothing. -/
def vformat : List Char → List Arg → List Nat
  | '%' :: 'c' :: rest, .int value :: arguments => value % 256 :: vformat rest arguments
  | '%' :: 'u' :: rest, .int value :: arguments => decimal value ++ vformat rest arguments
  | '%' :: 's' :: rest, .str chars :: arguments => cstring chars ++ vformat rest arguments
  | '%' :: _ :: rest, _ :: arguments => vformat rest arguments
  | '%' :: _ :: rest, [] => vformat rest []
  | c :: rest, arguments => c.toNat :: vformat rest arguments
  | [], _ => []

/-- Library function `vsnprintf(buffer, size, format, arguments)` as C99
7.19.6.12 and avr-libc define it: at most `size - 1` characters of the output
are stored, followed by a NUL, and the value returned is the length the
complete output has, whether it was truncated or not.  A negative value is returned only on an encoding
error, which `%c`, `%u` and `%s` cannot raise.  The result is the returned
`int` and the bytes stored at the start of `buffer`. -/
def vsnprintf (size : Nat) (format : List Char) (arguments : List Arg) : Int × List Nat :=
  let full := vformat format arguments
  ((full.length : Int), if size = 0 then [] else full.take (size - 1) ++ [0])

/-- How the loop of cpp 95-107 was left. -/
inductive Encoded
  | overflow
  | fitted (size : Nat) (buffer : List Nat)
  deriving DecidableEq

/-- The `while(true)` of cpp 95-107 up to the point where a formatting attempt
is accepted.  `attempt size` is the call `vsnprintf(buffer, size, ...)`, `size`
is the `uint8_t` capacity, and `fuel` bounds the number of attempts; `none`
means the bound was reached. -/
def encodeLoop (attempt : Nat → Int × List Nat) : Nat → Nat → Option Encoded
  | 0, _ => none
  | fuel + 1, size =>
    if (attempt size).1 < 0 then
      if size = 128 then some .overflow
      else encodeLoop attempt fuel (size * 2 % 256)
    else some (.fitted size (attempt size).2)

/-! ## Reliable exchange engine -/

/-- Data memory once `vsnprintf` has stored `packet` at the start of `buffer`. -/
def stored (m : Machine) (packet : List Nat) (address : Nat) : Nat :=
  if m.bufferAddr ≤ address ∧ address < m.bufferAddr + packet.length then
    packet.getD (address - m.bufferAddr) 0
  else m.memory address

/-- The loop of cpp 117-119,
`for(char *character = buffer; character; character += 1)`, whose body is to
transmit `*character`.  The loop goes on while the pointer `character` itself
is non-null; a pointer is a machine integer of `ptrBits` bits.  `sent` holds
the bytes handed to the link so far, latest first; the result is the list of
all bytes handed to the link, in order. -/
def sendLoop (ptrBits : Nat) (read : Nat → Nat) (character : Nat) (sent : List Nat) :
    List Nat :=
  if character = 0 then sent.reverse
  else sendLoop ptrBits read ((character + 1) % 2 ^ ptrBits) (read character :: sent)
termination_by
  if character = 0 then 0 else if character < 2 ^ ptrBits then 2 ^ ptrBits - character
  else 2 ^ ptrBits + 1
decreasing_by
  have hpos : 0 < 2 ^ ptrBits := Nat.two_pow_pos ptrBits
  have hlt : (character + 1) % 2 ^ ptrBits < 2 ^ ptrBits := Nat.mod_lt _ hpos
  rename_i hne
  simp only [hne, if_false]
  by_cases hc : character < 2 ^ ptrBits
  · simp only [hc, if_true]
    by_cases he : character + 1 = 2 ^ ptrBits
    · rw [he, Nat.mod_self]
      simp only [if_true]
      omega
    · have hs : character + 1 < 2 ^ ptrBits := by omega
      rw [Nat.mod_eq_of_lt hs]
      simp only [hs, if_true, Nat.succ_ne_zero, if_false]
      omega
  · simp only [hc, if_false]
    split
    · omega
    · omega

/-- What one call of `transmit` did: the `Error` it returned, the capacity
`size` and the contents of `buffer` when the encoding loop was left, the
number of readiness polls, and the bytes handed to the link. -/
structure Transmitted where
  error : Error
  capacity : Nat
  packet : List Nat
  polls : Nat
  sent : List Nat
  deriving DecidableEq

/-- Function `Error transmit(const char *format, ...)`, cpp 90-135.
The result is `none` only if the encoding loop did not finish within 7
attempts (capacities 2, 4, ..., 128). -/
def transmit (m : Machine) (link : Link) (format : List Char) (arguments : List Arg) :
    Option Transmitted :=
  match encodeLoop (fun size => vsnprintf size format arguments) 7 2 with
  | none => none
  | some .overflow =>
    some { error := .PACKET_OVERFLOW, capacity := 128, packet := [], polls := 0, sent := [] }
  | some (.fitted size buffer) =>
    let readyError := awaitReady link
    if readyError.error.isSet then
      some { error := readyError.error, capacity := size, packet := buffer,
             polls := readyError.polls, sent := [] }
    else
      let sent := sendLoop m.ptrBits (stored m buffer) (m.bufferAddr % 2 ^ m.ptrBits) []
      if link.unacknowledged then
        some { error := .RETRIES_EXCEEDED, capacity := size, packet := buffer,
               polls := readyError.polls, sent := sent }
      else if link.malformed then
        some { error := .PACKET_MALFORMED, capacity := size, packet := buffer,
               polls := readyError.polls, sent := sent }
      else
        some { error := .NONE, capacity := size, packet := buffer,
               polls := readyError.polls, sent := sent }

/-- Function `Error receive(char *buffer, const uint16_t bufferSize)`,
cpp 158-160: the body is `return Error::NONE;`, the buffer is left as it is. -/
def receive (buffer : List Nat) (_bufferSize : Nat) : Error × List Nat :=
  (.NONE, buffer)

/-- What one call of `transcieve` did: the `Error` it returned, the record of
its `transmit` step, the `bufferSize` of every call of `receive` it made, and
the response buffer afterwards. -/
structure Transcieved where
  error : Error
  transmitted : Transmitted
  receives : List Nat
  buffer : List Nat
  deriving DecidableEq

/-- Function `Error transcieve(char *buffer, const uint16_t
bufferSize, const char *format, ...)`, cpp 183-197.  Line 190 calls `transmit(format, arguments)`:
the single variadic argument `transmit` gets is the `va_list` object, so its
formatter reads `m.vaList` first and `m.beyond` after it, and the arguments of
the caller (`_arguments`) are not forwarded. -/
def transcieve (m : Machine) (link : Link) (buffer : List Nat) (bufferSize : Nat)
    (format : List Char) (_arguments : List Arg) : Option Transcieved :=
  match transmit m link format (Arg.int m.vaList :: m.beyond) with
  | none => none
  | some transmitted =>
    if transmitted.error.isSet then
      some { error := transmitted.error, transmitted := transmitted, receives := [],
             buffer := buffer }
    else
      let received := receive buffer bufferSize
      some { error := received.1, transmitted := transmitted, receives := [bufferSize],
             buffer := received.2 }

/-! ## Command façade -/

/-- What a façade call with a reference parameter did: the `Error` returned,
the reference parameter after the call, and the record of the exchange. -/
structure Outcome (α τ : Type) where
  error : Error
  out : α
  trace : τ

/-- The value of a `char` holding the byte `b`, promoted to `int` and kept as
its low 16 bits in two's complement, which is all a conversion to `uint16_t`
retains: a signed `char` of 128 or more is negative and sign-extends. -/
def promote (m : Machine) (b : Nat) : Nat :=
  if m.charSigned && decide (128 ≤ b) then b + 0xFF00 else b

/-- The expression `hi << 8 | lo` on two `char`s, assigned to a `uint16_t`
(cpp 268, 297-299). -/
def pack16 (m : Machine) (hi lo : Nat) : Nat :=
  ((promote m hi <<< 8) ||| promote m lo) % 65536

/-- The default argument `Colour{0, 0, 0}` of hpp 163, 225, 245, 267: three
initialisers for four members, the fourth is zero-initialised. -/
def defaultColour : Colour := { red := 0, green := 0, blue := 0, alpha := 0 }

/-- Function `Error displayConnected(bool &connected)`, cpp 210-223.  `response` is what
the local `char response` holds. -/
def displayConnected (m : Machine) (link : Link) (connected : Bool) (response : List Nat) :
    Option (Outcome Bool Transcieved) :=
  match transcieve m link response 1 "%c".toList [.int Code.DISPLAY_CONNECTED] with
  | none => none
  | some exchange =>
    if exchange.error.isSet then
      some { error := exchange.error, out := connected, trace := exchange }
    else
      some { error := .NONE, out := exchange.buffer.getD 0 0 != 0, trace := exchange }

/-- Function `Error loadFont(Font &font, const char *name, const uint8_t &size)`,
cpp 226-241. -/
def loadFont (m : Machine) (link : Link) (font : Font) (name : List Nat) (size : Nat)
    (response : List Nat) : Option (Outcome Font Transcieved) :=
  match transcieve m link response 1 "%c%s%c".toList
      [.int Code.LOAD_FONT, .str name, .int size] with
  | none => none
  | some exchange =>
    if exchange.error.isSet then
      some { error := exchange.error, out := font, trace := exchange }
    else
      some { error := .NONE, out := exchange.buffer.getD 0 0 % 256, trace := exchange }

/-- Function `Error freeFont(Font &font)`, cpp 244-252. -/
def freeFont (m : Machine) (link : Link) (font : Font) : Option (Outcome Font Transmitted) :=
  match transmit m link "%c%c".toList [.int Code.FREE_FONT, .int font] with
  | none => none
  | some transmitted =>
    if transmitted.error.isSet then
      some { error := transmitted.error, out := font, trace := transmitted }
    else
      some { error := .NONE, out := 0, trace := transmitted }

/-- Function `Error createSurface(Surface &surface, const Rectangle &area)`,
cpp 255-271.  `response` is what the local `char response[2]` holds. -/
def createSurface (m : Machine) (link : Link) (surface : Surface) (area : Rectangle)
    (response : List Nat) : Option (Outcome Surface Transcieved) :=
  match transcieve m link response 2 "%c%u%u".toList
      [.int Code.CREATE_SURFACE, .int area.width, .int area.height] with
  | none => none
  | some exchange =>
    if exchange.error.isSet then
      some { error := exchange.error, out := surface, trace := exchange }
    else
      some { error := .NONE,
             out := { ID := pack16 m (exchange.buffer.getD 0 0) (exchange.buffer.getD 1 0),
                      area := area },
             trace := exchange }

/-- Function `Error createTextSurface(Surface &surface, const Font &font, const char
*text, const Colour colour)`, cpp 274-302.  `response` is what the local
`char response[6]` holds; the size handed to `transcieve` is the `4` of
cpp 283. -/
def createTextSurface (m : Machine) (link : Link) (surface : Surface) (font : Font)
    (text : List Nat) (colour : Colour) (response : List Nat) :
    Option (Outcome Surface Transcieved) :=
  let textLength := strlen text % 65536
  match transcieve m link response 4 "%c%c%u%s%c%c%c%c".toList
      [.int Code.CREATE_TEXT_SURFACE, .int font, .int textLength, .str text,
       .int colour.red, .int colour.green, .int colour.blue, .int colour.alpha] with
  | none => none
  | some exchange =>
    if exchange.error.isSet then
      some { error := exchange.error, out := surface, trace := exchange }
    else
      some { error := .NONE,
             out := { ID := pack16 m (exchange.buffer.getD 0 0) (exchange.buffer.getD 1 0),
                      area := { width := pack16 m (exchange.buffer.getD 2 0)
                                  (exchange.buffer.getD 3 0),
                                height := pack16 m (exchange.buffer.getD 4 0)
                                  (exchange.buffer.getD 5 0) } },
             trace := exchange }

/-- Function `Error freeSurface(Surface &surface)`, cpp 305-313. -/
def freeSurface (m : Machine) (link : Link) (surface : Surface) :
    Option (Outcome Surface Transmitted) :=
  match transmit m link "%c%u".toList [.int Code.FREE_SURFACE, .int surface.ID] with
  | none => none
  | some transmitted =>
    if transmitted.error.isSet then
      some { error := transmitted.error, out := surface, trace := transmitted }
    else
      some { error := .NONE, out := { surface with ID := 0 }, trace := transmitted }

/-- The argument list `blitSurface` builds, cpp 321-347: the region and the
destination are the given ones, or the defaults when the pointer is null. -/
def blitArguments (source target : Surface) (sourceRegion : Option Box)
    (targetDestination : Option Point) : List Arg :=
  let region : Box :=
    match sourceRegion with
    | some given => given
    | none => { area := source.area, origin := { x := 0, y := 0 } }
  let destination : Point :=
    match targetDestination with
    | some given => given
    | none => { x := 0, y := 0 }
  [.int Code.BLIT_SURFACE, .int source.ID, .int target.ID,
   .int region.origin.x, .int region.origin.y,
   .int region.area.width, .int region.area.height,
   .int destination.x, .int destination.y]

/-- Function `Error blitSurface(const Surface &source, const Surface &target, const Box
*sourceRegion, const Point *targetDestination)`, cpp 316-348. -/
def blitSurface (m : Machine) (link : Link) (source target : Surface)
    (sourceRegion : Option Box) (targetDestination : Option Point) : Option Transmitted :=
  transmit m link "%c%u%u%u%u%u%u%u%u".toList
    (blitArguments source target sourceRegion targetDestination)

/-- Function `Error drawPoint(const Surface &surface, const Point &point, const Colour
colour)`, cpp 351-364. -/
def drawPoint (m : Machine) (link : Link) (surface : Surface) (point : Point)
    (colour : Colour) : Option Transmitted :=
  transmit m link "%c%u%u%u%c%c%c%c".toList
    [.int Code.DRAW_POINT, .int surface.ID, .int point.x, .int point.y,
     .int colour.red, .int colour.green, .int colour.blue, .int colour.alpha]

/-- Function `Error drawLine(const Surface &surface, const Line &line, const Colour
colour)`, cpp 367-382. -/
def drawLine (m : Machine) (link : Link) (surface : Surface) (line : Line)
    (colour : Colour) : Option Transmitted :=
  transmit m link "%c%u%u%u%u%u%c%c%c%c".toList
    [.int Code.DRAW_LINE, .int surface.ID, .int line.start.x, .int line.start.y,
     .int line.finish.x, .int line.finish.y,
     .int colour.red, .int colour.green, .int colour.blue, .int colour.alpha]

/-- Function `Error drawBox(const Surface &surface, const Box &box, const Colour
colour, const bool fill)`, cpp 385-401. -/
def drawBox (m : Machine) (link : Link) (surface : Surface) (box : Box)
    (colour : Colour) (_fill : Bool) : Option Transmitted :=
  transmit m link "%c%u%u%u%u%u%c%c%c%c".toList
    [.int Code.DRAW_BOX, .int surface.ID, .int box.origin.x, .int box.origin.y,
     .int box.area.width, .int box.area.height,
     .int colour.red, .int colour.green, .int colour.blue, .int colour.alpha]

/-- The argument list `render` builds, cpp 408-433. -/
def renderArguments (surface : Surface) (sourceRegion : Option Box)
    (targetDestination : Option Point) : List Arg :=
  let region : Box :=
    match sourceRegion with
    | some given => given
    | none => { area := surface.area, origin := { x := 0, y := 0 } }
  let destination : Point :=
    match targetDestination with
    | some given => given
    | none => { x := 0, y := 0 }
  [.int Code.RENDER, .int surface.ID,
   .int region.origin.x, .int region.origin.y,
   .int region.area.width, .int region.area.height,
   .int destination.x, .int destination.y]

/-- Function `Error render(const Surface &surface, const Box *sourceRegion, const Point
*targetDestination)`, cpp 404-434. -/
def render (m : Machine) (link : Link) (surface : Surface) (sourceRegion : Option Box)
    (targetDestination : Option Point) : Option Transmitted :=
  transmit m link "%c%u%u%u%u%u%u%u".toList
    (renderArguments surface sourceRegion targetDestination)

/-- Function `Error clear()`, cpp 437-439. -/
def clear (m : Machine) (link : Link) : Option Transmitted :=
  transmit m link "%c".toList [.int Code.CLEAR]

/-- Function `Error update()`, cpp 442-444. -/
def update (m : Machine) (link : Link) : Option Transmitted :=
  transmit m link "%c".toList [.int Code.UPDATE]

/-- Function `Error reset()`, cpp 447-449. -/
def reset (m : Machine) (link : Link) : Option Transmitted :=
  transmit m link "%c".toList [.int Code.RESET]

/-! ## Example inputs -/

/-- A text of 130 letters `A`. -/
def longText : List Nat := List.replicate 130 65

/-- A link whose board is not plugged in. -/
def Link.unplugged : Link :=
  { absent := true, ready := fun _ => true, unacknowledged := false, malformed := false }

/-- A link whose board is present and never signals that it is ready. -/
def Link.neverReady : Link :=
  { absent := false, ready := fun _ => false, unacknowledged := false, malformed := false }

/-- A link whose board signals that it is ready in the poll of index 3 only. -/
def Link.readyAtThree : Link :=
  { absent := false, ready := fun index => index == 3, unacknowledged := false,
    malformed := false }

/-- A ready link on which no acknowledgement arrives. -/
def Link.unacknowledging : Link :=
  { absent := false, ready := fun _ => true, unacknowledged := true, malformed := false }

/-- A formatter of the older kind (the `vsnprintf` of C libraries from before
C99), which walks the whole format and returns -1 when the output and its NUL
do not fit in `size` bytes.  It is not the `vsnprintf` of the target; it is
an input on which the encoding loop has to retry. -/
def refusingFormatter (format : List Char) (arguments : List Arg) (size : Nat) :
    Int × List Nat :=
  let full := vformat format arguments
  if full.length < size then ((full.length : Int), full ++ [0])
  else (-1, if size = 0 then [] else full.take (size - 1) ++ [0])

/-- Two numbers that `%u` writes with the same number of digits. -/
def sameDigitCount (x y : Nat) : Prop := (decimal x).length = (decimal y).length

/-! ## Lemmas about the engine -/

theorem vsnprintf_count_nonneg (size : Nat) (format : List Char) (arguments : List Arg) :
    ¬ (vsnprintf size format arguments).1 < 0 := by
  simp [vsnprintf]

theorem vsnprintf_two (format : List Char) (arguments : List Arg) :
    (vsnprintf 2 format arguments).2 = (vformat format arguments).take 1 ++ [0] := by
  simp [vsnprintf]

/-- With the standard `vsnprintf` the first attempt is always accepted. -/
theorem encodeLoop_vsnprintf (format : List Char) (arguments : List Arg) (fuel size : Nat) :
    encodeLoop (fun size => vsnprintf size format arguments) (fuel + 1) size
      = some (.fitted size (vsnprintf size format arguments).2) := by
  simp [encodeLoop, vsnprintf_count_nonneg]

/-- The body of `transmit` once the encoding loop is resolved. -/
theorem transmit_eq (m : Machine) (link : Link) (format : List Char) (arguments : List Arg) :
    transmit m link format arguments =
      if (awaitReady link).error.isSet then
        some { error := (awaitReady link).error, capacity := 2,
               packet := (vformat format arguments).take 1 ++ [0],
               polls := (awaitReady link).polls, sent := [] }
      else if link.unacknowledged then
        some { error := .RETRIES_EXCEEDED, capacity := 2,
               packet := (vformat format arguments).take 1 ++ [0],
               polls := (awaitReady link).polls,
               sent := sendLoop m.ptrBits (stored m ((vformat format arguments).take 1 ++ [0]))
                 (m.bufferAddr % 2 ^ m.ptrBits) [] }
      else if link.malformed then
        some { error := .PACKET_MALFORMED, capacity := 2,
               packet := (vformat format arguments).take 1 ++ [0],
               polls := (awaitReady link).polls,
               sent := sendLoop m.ptrBits (stored m ((vformat format arguments).take 1 ++ [0]))
                 (m.bufferAddr % 2 ^ m.ptrBits) [] }
      else
        some { error := .NONE, capacity := 2,
               packet := (vformat format arguments).take 1 ++ [0],
               polls := (awaitReady link).polls,
               sent := sendLoop m.ptrBits (stored m ((vformat format arguments).take 1 ++ [0]))
                 (m.bufferAddr % 2 ^ m.ptrBits) [] } := by
  unfold transmit
  rw [encodeLoop_vsnprintf, vsnprintf_two]

/-- Totality: `transmit` always returns. -/
theorem transmit_returns (m : Machine) (link : Link) (format : List Char)
    (arguments : List Arg) : ∃ t, transmit m link format arguments = some t := by
  rw [transmit_eq]
  split
  · exact ⟨_, rfl⟩
  · split
    · exact ⟨_, rfl⟩
    · split <;> exact ⟨_, rfl⟩

theorem isSet_iff (e : Error) : e.isSet = true ↔ e ≠ .NONE := by
  cases e <;> simp [Error.isSet, Error.toNat]

/-- A failed readiness gate is what `transmit` returns, with nothing sent. -/
theorem transmit_of_not_ready (m : Machine) (link : Link) (format : List Char)
    (arguments : List Arg) (h : (awaitReady link).error ≠ .NONE) :
    transmit m link format arguments =
      some { error := (awaitReady link).error, capacity := 2,
             packet := (vformat format arguments).take 1 ++ [0],
             polls := (awaitReady link).polls, sent := [] } := by
  rw [transmit_eq, if_pos ((isSet_iff _).mpr h)]

/-- Totality: `transcieve` always returns. -/
theorem transcieve_returns (m : Machine) (link : Link) (buffer : List Nat) (bufferSize : Nat)
    (format : List Char) (arguments : List Arg) :
    ∃ x, transcieve m link buffer bufferSize format arguments = some x := by
  unfold transcieve
  obtain ⟨t, ht⟩ := transmit_returns m link format (Arg.int m.vaList :: m.beyond)
  rw [ht]
  dsimp only
  split <;> exact ⟨_, rfl⟩

/-- The two ways `transcieve` ends, in terms of its `transmit` step. -/
theorem transcieve_cases (m : Machine) (link : Link) (buffer : List Nat) (bufferSize : Nat)
    (format : List Char) (arguments : List Arg) (x : Transcieved)
    (hx : transcieve m link buffer bufferSize format arguments = some x) :
    transmit m link format (Arg.int m.vaList :: m.beyond) = some x.transmitted ∧
    ((x.transmitted.error ≠ .NONE ∧ x.error = x.transmitted.error ∧ x.receives = [] ∧
        x.buffer = buffer) ∨
     (x.transmitted.error = .NONE ∧ x.error = (receive buffer bufferSize).1 ∧
        x.receives = [bufferSize] ∧ x.buffer = (receive buffer bufferSize).2)) := by
  unfold transcieve at hx
  obtain ⟨t, ht⟩ := transmit_returns m link format (Arg.int m.vaList :: m.beyond)
  rw [ht] at hx
  dsimp only at hx
  by_cases he : t.error.isSet = true
  · rw [if_pos he] at hx
    cases hx
    exact ⟨ht, Or.inl ⟨(isSet_iff _).mp he, rfl, rfl, rfl⟩⟩
  · rw [if_neg he] at hx
    cases hx
    refine ⟨ht, Or.inr ⟨?_, rfl, rfl, rfl⟩⟩
    by_contra hne
    exact he ((isSet_iff _).mpr hne)

theorem sendLoop_null (ptrBits : Nat) (read : Nat → Nat) (sent : List Nat) :
    sendLoop ptrBits read 0 sent = sent.reverse := by
  rw [sendLoop, if_pos rfl]

theorem sendLoop_next (ptrBits : Nat) (read : Nat → Nat) (character : Nat) (sent : List Nat)
    (h : character ≠ 0) :
    sendLoop ptrBits read character sent =
      sendLoop ptrBits read ((character + 1) % 2 ^ ptrBits) (read character :: sent) := by
  rw [sendLoop, if_neg h]

/-- The bytes already handed over come first in the result of the send loop. -/
theorem sendLoop_sent_first (ptrBits : Nat) (read : Nat → Nat) (character : Nat)
    (sent : List Nat) :
    sendLoop ptrBits read character sent = sent.reverse ++ sendLoop ptrBits read character [] := by
  have key : ∀ (c : Nat) (_ : List Nat),
      ∀ s, sendLoop ptrBits read c s = s.reverse ++ sendLoop ptrBits read c [] := by
    intro c l
    induction c, l using sendLoop.induct ptrBits read with
    | case1 _ =>
      intro s
      simp [sendLoop_null]
    | case2 c _ hne ih =>
      intro s
      rw [sendLoop_next _ _ _ s hne, sendLoop_next _ _ _ [] hne, ih (read c :: s), ih [read c]]
      simp
  exact key character [] sent

/-- One turn of the send loop from a non-null pointer. -/
theorem sendLoop_cons (ptrBits : Nat) (read : Nat → Nat) (character : Nat)
    (h : character ≠ 0) :
    sendLoop ptrBits read character [] =
      read character :: sendLoop ptrBits read ((character + 1) % 2 ^ ptrBits) [] := by
  rw [sendLoop_next _ _ _ [] h, sendLoop_sent_first]
  rfl

/-- On a ready, acknowledging link `transmit` returns `NONE` after handing the
link what the send loop walks over. -/
theorem transmit_of_ready (m : Machine) (link : Link) (format : List Char)
    (arguments : List Arg) (h : (awaitReady link).error = .NONE)
    (hack : link.unacknowledged = false) (hmal : link.malformed = false) :
    transmit m link format arguments =
      some { error := .NONE, capacity := 2,
             packet := (vformat format arguments).take 1 ++ [0],
             polls := (awaitReady link).polls,
             sent := sendLoop m.ptrBits (stored m ((vformat format arguments).take 1 ++ [0]))
               (m.bufferAddr % 2 ^ m.ptrBits) [] } := by
  have hset : ¬ (awaitReady link).error.isSet = true := by
    rw [isSet_iff]
    exact fun hne => hne h
  rw [transmit_eq, if_neg hset, hack, hmal]
  rfl

/-- On the Uno the send loop starts with the first two bytes of the buffer. -/
theorem uno_sendLoop_take_two (a b : Nat) (rest : List Nat) :
    (sendLoop uno.ptrBits (stored uno (a :: b :: rest)) (uno.bufferAddr % 2 ^ uno.ptrBits)
      []).take 2 = [a, b] := by
  have h0 : uno.bufferAddr % 2 ^ uno.ptrBits = 0x08D0 := by decide
  have h1 : (0x08D0 + 1) % 2 ^ uno.ptrBits = 0x08D1 := by decide
  rw [h0, sendLoop_cons _ _ _ (by decide), h1, sendLoop_cons _ _ _ (by decide)]
  simp [stored, uno]
  omega

/-- A failed readiness gate is what `transcieve` returns, with nothing sent
and `receive` not called. -/
theorem transcieve_of_not_ready (m : Machine) (link : Link) (buffer : List Nat)
    (bufferSize : Nat) (format : List Char) (arguments : List Arg)
    (h : (awaitReady link).error ≠ .NONE) :
    transcieve m link buffer bufferSize format arguments =
      some { error := (awaitReady link).error,
             transmitted :=
               { error := (awaitReady link).error, capacity := 2,
                 packet := (vformat format (Arg.int m.vaList :: m.beyond)).take 1 ++ [0],
                 polls := (awaitReady link).polls, sent := [] },
             receives := [], buffer := buffer } := by
  unfold transcieve
  rw [transmit_of_not_ready m link format _ h]
  dsimp only
  rw [if_pos ((isSet_iff _).mpr h)]

/-- If no poll in a window sees the ready signal, the loop runs through it. -/
theorem pollLoop_never (link : Link) (remaining index : Nat)
    (h : ∀ j, index ≤ j → j < index + remaining → link.ready j = false) :
    pollLoop link remaining index = { error := .UNRESPONSIVE, polls := index + remaining } := by
  induction remaining generalizing index with
  | zero => rfl
  | succ n ih =>
    have h0 : link.ready index = false := h index (Nat.le_refl _) (by omega)
    rw [pollLoop, h0]
    simp only [Bool.false_eq_true, if_false]
    rw [ih (index + 1) (fun j h1 h2 => h j (by omega) (by omega))]
    congr 1
    omega

/-- The loop stops at the first poll that sees the ready signal. -/
theorem pollLoop_first (link : Link) (remaining index k : Nat) (hk : k < remaining)
    (hready : link.ready (index + k) = true)
    (hbefore : ∀ j, j < k → link.ready (index + j) = false) :
    pollLoop link remaining index = { error := .NONE, polls := index + k + 1 } := by
  induction remaining generalizing index k with
  | zero => omega
  | succ n ih =>
    cases k with
    | zero =>
      rw [pollLoop]
      simp only [Nat.add_zero] at hready
      rw [if_pos hready]
    | succ k =>
      have h0 : link.ready index = false := by simpa using hbefore 0 (by omega)
      rw [pollLoop, h0]
      simp only [Bool.false_eq_true, if_false]
      rw [ih (index + 1) k (by omega) (by rw [← hready]; congr 1; omega)
        (fun j hj => by rw [← hbefore (j + 1) (by omega)]; congr 1; omega)]
      congr 1
      omega

/-- The loop never polls beyond its window. -/
theorem pollLoop_polls_le (link : Link) (remaining index : Nat) :
    (pollLoop link remaining index).polls ≤ index + remaining := by
  induction remaining generalizing index with
  | zero => exact Nat.le_refl _
  | succ n ih =>
    rw [pollLoop]
    split
    · simp only
      omega
    · have := ih (index + 1)
      omega

/-- From a pointer inside the address space the send loop runs until the
pointer wraps to null: `2 ^ ptrBits - character` turns. -/
theorem sendLoop_length (ptrBits : Nat) (read : Nat → Nat) (character : Nat)
    (sent : List Nat) (h : character < 2 ^ ptrBits) :
    (sendLoop ptrBits read character sent).length =
      sent.length + (if character = 0 then 0 else 2 ^ ptrBits - character) := by
  have hpos : 0 < 2 ^ ptrBits := Nat.two_pow_pos ptrBits
  have key : ∀ (c : Nat) (s : List Nat), c < 2 ^ ptrBits →
      (sendLoop ptrBits read c s).length =
        s.length + (if c = 0 then 0 else 2 ^ ptrBits - c) := by
    intro c s
    induction c, s using sendLoop.induct ptrBits read with
    | case1 s =>
      intro _
      simp [sendLoop_null]
    | case2 c s hne ih =>
      intro hc
      rw [sendLoop_next _ _ _ _ hne, ih (Nat.mod_lt _ hpos)]
      simp only [hne, if_false, List.length_cons]
      by_cases he : c + 1 = 2 ^ ptrBits
      · rw [he, Nat.mod_self]
        simp only [if_true]
        omega
      · have hs : c + 1 < 2 ^ ptrBits := by omega
        rw [Nat.mod_eq_of_lt hs]
        simp only [Nat.succ_ne_zero, if_false]
        omega
  exact key character sent h

/-- What `transmit` leaves in its buffer: the capacity is 2 and the buffer
holds the first byte of the formatted request and a NUL. -/
theorem transmit_encoding (m : Machine) (link : Link) (format : List Char)
    (arguments : List Arg) (t : Transmitted)
    (ht : transmit m link format arguments = some t) :
    t.capacity = 2 ∧ t.packet = (vformat format arguments).take 1 ++ [0] := by
  rw [transmit_eq] at ht
  split at ht
  · cases ht
    exact ⟨rfl, rfl⟩
  · split at ht
    · cases ht
      exact ⟨rfl, rfl⟩
    · split at ht <;> cases ht <;> exact ⟨rfl, rfl⟩

/-- The `Error` of `transmit` is fixed by the link alone. -/
theorem transmit_error (m : Machine) (link : Link) (format : List Char)
    (arguments : List Arg) (t : Transmitted)
    (ht : transmit m link format arguments = some t) :
    t.error = if (awaitReady link).error.isSet then (awaitReady link).error
      else if link.unacknowledged then .RETRIES_EXCEEDED
      else if link.malformed then .PACKET_MALFORMED else .NONE := by
  rw [transmit_eq] at ht
  by_cases h1 : (awaitReady link).error.isSet = true
  · rw [if_pos h1] at ht
    cases ht
    rw [if_pos h1]
  · rw [if_neg h1] at ht
    rw [if_neg h1]
    by_cases h2 : link.unacknowledged = true
    · rw [if_pos h2] at ht
      cases ht
      rw [if_pos h2]
    · rw [if_neg h2] at ht
      rw [if_neg h2]
      by_cases h3 : link.malformed = true
      · rw [if_pos h3] at ht
        cases ht
        rw [if_pos h3]
      · rw [if_neg h3] at ht
        cases ht
        rw [if_neg h3]

/-- Started at the capacity `2 ^ j` with enough attempts left to reach 128,
the encoding loop ends, and a capacity it accepts is a power of two up to 128
at which the attempt was not negative. -/
theorem encodeLoop_from_power (attempt : Nat → Int × List Nat) (fuel : Nat) :
    ∀ j, 1 ≤ j → j ≤ 7 → 7 - j < fuel →
      ∃ e, encodeLoop attempt fuel (2 ^ j) = some e ∧
        ∀ size buffer, e = .fitted size buffer →
          (∃ i, j ≤ i ∧ i ≤ 7 ∧ size = 2 ^ i) ∧ buffer = (attempt size).2 ∧
          ¬ (attempt size).1 < 0 := by
  induction fuel with
  | zero =>
    intro j _ _ h
    omega
  | succ fuel ih =>
    intro j h1 h7 hfuel
    by_cases hneg : (attempt (2 ^ j)).1 < 0
    · by_cases hj : j = 7
      · subst hj
        refine ⟨.overflow, ?_, ?_⟩
        · rw [encodeLoop, if_pos hneg, if_pos (by decide)]
        · intro size buffer h
          cases h
      · have h6 : j ≤ 6 := by omega
        have h128 : 2 ^ j ≠ 128 := by
          interval_cases j <;> decide
        have hnext : 2 ^ j * 2 % 256 = 2 ^ (j + 1) := by
          interval_cases j <;> decide
        obtain ⟨e, he, hall⟩ := ih (j + 1) (by omega) (by omega) (by omega)
        refine ⟨e, ?_, ?_⟩
        · rw [encodeLoop, if_pos hneg, if_neg h128, hnext]
          exact he
        · intro size buffer h
          obtain ⟨⟨i, hi, hi7, hs⟩, hb, hn⟩ := hall size buffer h
          exact ⟨⟨i, by omega, hi7, hs⟩, hb, hn⟩
    · refine ⟨.fitted (2 ^ j) (attempt (2 ^ j)).2, ?_, ?_⟩
      · rw [encodeLoop, if_neg hneg]
      · intro size buffer h
        cases h
        exact ⟨⟨j, Nat.le_refl _, h7, rfl⟩, rfl, hneg⟩

/-- From the capacity 2 with 7 attempts the encoding loop ends for every
formatter, and a capacity it accepts is one of 2, 4, 8, 16, 32, 64, 128, the
buffer holding what the formatter stored at that capacity. -/
theorem encodeLoop_from_two (attempt : Nat → Int × List Nat) :
    ∃ e, encodeLoop attempt 7 2 = some e ∧
      ∀ size buffer, e = .fitted size buffer →
        size ∈ [2, 4, 8, 16, 32, 64, 128] ∧ buffer = (attempt size).2 ∧
        ¬ (attempt size).1 < 0 := by
  obtain ⟨e, he, hall⟩ := encodeLoop_from_power attempt 7 1 (by decide) (by decide) (by decide)
  refine ⟨e, he, ?_⟩
  intro size buffer h
  obtain ⟨⟨i, hi1, hi7, hs⟩, hb, hn⟩ := hall size buffer h
  refine ⟨?_, hb, hn⟩
  subst hs
  interval_cases i <;> decide

/-- What `vsnprintf` stores is at least the NUL and never more than `size`. -/
theorem vsnprintf_stored_length (size : Nat) (format : List Char) (arguments : List Arg)
    (h : 0 < size) :
    1 ≤ (vsnprintf size format arguments).2.length ∧
    (vsnprintf size format arguments).2.length ≤ size := by
  have hs : size ≠ 0 := by omega
  simp only [vsnprintf, hs, if_false, List.length_append, List.length_take, List.length_cons,
    List.length_nil]
  omega

theorem digitChar_value (k : Nat) (hk : k < 10) : (Nat.digitChar k).toNat - 48 = k := by
  interval_cases k <;> rfl

/-- Reading the digits of `Nat.toDigitsCore` back gives the number. -/
theorem toDigitsCore_value (fuel : Nat) :
    ∀ (n : Nat) (ds : List Char), n < fuel →
      (Nat.toDigitsCore 10 fuel n ds).foldl (fun acc c => 10 * acc + (c.toNat - 48)) 0
        = ds.foldl (fun acc c => 10 * acc + (c.toNat - 48)) n := by
  induction fuel with
  | zero =>
    intro n ds h
    omega
  | succ fuel ih =>
    intro n ds h
    simp only [Nat.toDigitsCore]
    split
    · rename_i hz
      have hn : n < 10 := by omega
      simp only [List.foldl_cons, Nat.mul_zero, Nat.zero_add]
      rw [digitChar_value _ (Nat.mod_lt _ (by decide)), Nat.mod_eq_of_lt hn]
    · rename_i hz
      rw [ih (n / 10) _ (by omega)]
      simp only [List.foldl_cons]
      rw [digitChar_value _ (Nat.mod_lt _ (by decide)), Nat.div_add_mod]

/-- The digits written by `%u` determine the number. -/
theorem decimal_injective (x y : Nat) (h : decimal x = decimal y) : x = y := by
  have hval : ∀ n, (decimal n).foldl (fun acc b => 10 * acc + (b - 48)) 0 = n := by
    intro n
    unfold decimal Nat.toDigits
    rw [List.foldl_map]
    exact toDigitsCore_value (n + 1) n [] (Nat.lt_succ_self n)
  rw [← hval x, ← hval y, h]

/-- Two `%u` outputs of the same length at the head of two equal byte strings
are outputs for the same number, and what follows them is equal. -/
theorem decimal_append_cancel (x y : Nat) (r₁ r₂ : List Nat)
    (hlen : sameDigitCount x y)
    (h : decimal x ++ r₁ = decimal y ++ r₂) : x = y ∧ r₁ = r₂ := by
  obtain ⟨hd, hr⟩ := List.append_inj h hlen
  exact ⟨decimal_injective x y hd, hr⟩

/-- A `%u` output followed by nothing else determines the number. -/
theorem decimal_cancel_at_end (x y : Nat) (h : decimal x ++ [] = decimal y ++ []) :
    x = y := by
  rw [List.append_nil, List.append_nil] at h
  exact decimal_injective x y h

/-- A `%u` output followed by four `%c` bytes determines the number. -/
theorem decimal_cancel_before_bytes (x y : Nat) (a b c d a' b' c' d' : Nat)
    (h : decimal x ++ [a, b, c, d] = decimal y ++ [a', b', c', d']) : x = y := by
  have hlen : (decimal x).length = (decimal y).length := by
    have := congrArg List.length h
    simp only [List.length_append, List.length_cons, List.length_nil] at this
    omega
  exact (decimal_append_cancel x y _ _ hlen h).1

/-- Two argument lists with the same formatted request have the same
`transmit`. -/
theorem transmit_congr (m : Machine) (link : Link) (format : List Char)
    (a₁ a₂ : List Arg) (h : vformat format a₁ = vformat format a₂) :
    transmit m link format a₁ = transmit m link format a₂ := by
  rw [transmit_eq, transmit_eq, h]

/-! ## Claims -/

/-- C1: `createSurface` always returns, and whenever it returns `Error::NONE`
the area of the resulting surface is the requested area, whatever the two
response bytes are. -/
theorem createSurface_echoes_area (m : Machine) (link : Link) (surface : Surface)
    (area : Rectangle) (response : List Nat) :
    (∃ r, createSurface m link surface area response = some r) ∧
    ∀ r, createSurface m link surface area response = some r →
      r.error = .NONE → r.out.area = area := by
  obtain ⟨x, hx⟩ := transcieve_returns m link response 2 "%c%u%u".toList
    [.int Code.CREATE_SURFACE, .int area.width, .int area.height]
  unfold createSurface
  rw [hx]
  dsimp only
  constructor
  · split <;> exact ⟨_, rfl⟩
  · intro r hr he
    split at hr
    · rename_i hset
      cases hr
      exact absurd he ((isSet_iff _).mp hset)
    · cases hr
      rfl

/-- C1, witness: on the Uno with the link as written, a request for 100 by 50
answered by the bytes `00 07` succeeds with `Surface{ID: 7, area: {100, 50}}`. -/
theorem createSurface_echoes_area_witness :
    ∃ r, createSurface uno Link.asWritten ⟨0, ⟨0, 0⟩⟩ ⟨100, 50⟩ [0, 7] = some r ∧
      r.error = .NONE ∧ r.out = ⟨7, ⟨100, 50⟩⟩ := by
  have hev : (createSurface uno Link.asWritten ⟨0, ⟨0, 0⟩⟩ ⟨100, 50⟩ [0, 7]).map
      (fun r => (r.error, r.out.ID)) = some (.NONE, 7) := by decide
  obtain ⟨⟨r, hr⟩, hall⟩ :=
    createSurface_echoes_area uno Link.asWritten ⟨0, ⟨0, 0⟩⟩ ⟨100, 50⟩ [0, 7]
  rw [hr] at hev
  simp only [Option.map_some', Option.some.injEq, Prod.mk.injEq] at hev
  have ha := hall r hr hev.1
  refine ⟨r, hr, hev.1, ?_⟩
  cases r with
  | mk error out trace =>
    cases out with
    | mk ID area' =>
      simp only at hev ha
      simp [hev.2, ha]

/-- Where `char` is unsigned, `pack16` is the big-endian value of two bytes. -/
theorem pack16_of_unsigned (m : Machine) (hm : m.charSigned = false) (hi lo : Nat)
    (hhi : hi < 256) (hlo : lo < 256) : pack16 m hi lo = 256 * hi + lo := by
  have hor : 2 ^ 8 * hi + lo = 2 ^ 8 * hi ||| lo := Nat.mul_add_lt_is_or (by simpa using hlo) hi
  simp only [pack16, promote, hm, Bool.false_and, Bool.false_eq_true, if_false,
    Nat.shiftLeft_eq]
  rw [Nat.mul_comm hi (2 ^ 8), ← hor]
  omega

/-- Bytes below `0x80` are decoded big-endian whatever the signedness of `char`. -/
theorem pack16_of_small (m : Machine) (hi lo : Nat) (hhi : hi < 128) (hlo : lo < 128) :
    pack16 m hi lo = 256 * hi + lo := by
  have hor : 2 ^ 8 * hi + lo = 2 ^ 8 * hi ||| lo :=
    Nat.mul_add_lt_is_or (by have : lo < 256 := by omega
                             simpa using this) hi
  have h1 : ¬ 128 ≤ hi := by omega
  have h2 : ¬ 128 ≤ lo := by omega
  simp only [pack16, promote, h1, h2, decide_False, Bool.and_false, Bool.false_eq_true,
    if_false, Nat.shiftLeft_eq]
  rw [Nat.mul_comm hi (2 ^ 8), ← hor]
  omega

/-- C2, the code at a failing input: on the Uno (signed `char`) the response
bytes `01 80` of a successful `createSurface` give `ID = 0xFF80 = 65408`, not
the big-endian value `256 * 1 + 128 = 384`; and the response `00 09 80 28 00
8A` of a successful `createTextSurface` gives width `0x8028` but height
`0xFF8A`, not `0x008A`. -/
theorem pack16_sign_extends_on_signed_char :
    (createSurface uno Link.asWritten ⟨0, ⟨0, 0⟩⟩ ⟨100, 50⟩ [0x01, 0x80]).map
        (fun r => (r.error, r.out.ID)) = some (.NONE, 0xFF80) ∧
    (createTextSurface uno Link.asWritten ⟨0, ⟨0, 0⟩⟩ 3 [72, 105] ⟨255, 0, 0, 255⟩
        [0x00, 0x09, 0x80, 0x28, 0x00, 0x8A]).map
        (fun r => (r.error, r.out)) = some (.NONE, ⟨9, ⟨0x8028, 0xFF8A⟩⟩) ∧
    256 * 0x01 + 0x80 ≠ 0xFF80 ∧ 256 * 0x00 + 0x8A ≠ 0xFF8A := by
  decide

/-- C3, the code at a failing input: the successful `createTextSurface` of the
specification's example hands `receive` the size 4, not 6, and still decodes
the height from the bytes at index 4 and 5 of its array; `displayConnected`,
`loadFont` and `createSurface` ask for 1, 1 and 2 bytes. -/
theorem createTextSurface_requests_four_bytes :
    (createTextSurface uno Link.asWritten ⟨0, ⟨0, 0⟩⟩ 3 [72, 105] ⟨255, 0, 0, 255⟩
        [0x00, 0x09, 0x00, 0x28, 0x00, 0x0A]).map
        (fun r => (r.error, r.trace.receives, r.out)) = some (.NONE, [4], ⟨9, ⟨40, 10⟩⟩) ∧
    (createTextSurface uno Link.asWritten ⟨0, ⟨0, 0⟩⟩ 3 [72, 105] ⟨255, 0, 0, 255⟩
        [0x00, 0x09, 0x00, 0x28, 0x01, 0x02]).map
        (fun r => r.out.area.height) = some 258 ∧
    (displayConnected uno Link.asWritten false [1]).map
        (fun r => (r.error, r.trace.receives)) = some (.NONE, [1]) ∧
    (loadFont uno Link.asWritten 0 [97] 12 [5]).map
        (fun r => (r.error, r.trace.receives)) = some (.NONE, [1]) ∧
    (createSurface uno Link.asWritten ⟨0, ⟨0, 0⟩⟩ ⟨100, 50⟩ [0, 7]).map
        (fun r => (r.error, r.trace.receives)) = some (.NONE, [2]) := by
  decide

/-- C4: `freeSurface` and `freeFont` always return; whenever `freeSurface`
returns `Error::NONE` the surface's ID is 0 and its area is the one it had,
and whenever `freeFont` returns `Error::NONE` the font handle is 0, for every
prior handle and every behaviour of the link. -/
theorem free_resets_handle (m : Machine) (link : Link) (surface : Surface) (font : Font) :
    (∃ r, freeSurface m link surface = some r) ∧
    (∀ r, freeSurface m link surface = some r → r.error = .NONE →
      r.out.ID = 0 ∧ r.out.area = surface.area) ∧
    (∃ r, freeFont m link font = some r) ∧
    (∀ r, freeFont m link font = some r → r.error = .NONE → r.out = 0) := by
  obtain ⟨t, ht⟩ := transmit_returns m link "%c%u".toList
    [.int Code.FREE_SURFACE, .int surface.ID]
  obtain ⟨u, hu⟩ := transmit_returns m link "%c%c".toList [.int Code.FREE_FONT, .int font]
  unfold freeSurface freeFont
  rw [ht, hu]
  dsimp only
  refine ⟨?_, ?_, ?_, ?_⟩
  · split <;> exact ⟨_, rfl⟩
  · intro r hr he
    split at hr
    · rename_i hset
      cases hr
      exact absurd he ((isSet_iff _).mp hset)
    · cases hr
      exact ⟨rfl, rfl⟩
  · split <;> exact ⟨_, rfl⟩
  · intro r hr he
    split at hr
    · rename_i hset
      cases hr
      exact absurd he ((isSet_iff _).mp hset)
    · cases hr
      rfl

/-- C4, witness: on the Uno with the link as written, freeing surface 7 of
area 3 by 4 and font 5 succeeds and leaves ID 0, area 3 by 4, and font 0. -/
theorem free_resets_handle_witness :
    (∃ r, freeSurface uno Link.asWritten ⟨7, ⟨3, 4⟩⟩ = some r ∧ r.error = .NONE ∧
      r.out.ID = 0 ∧ r.out.area = ⟨3, 4⟩) ∧
    (∃ r, freeFont uno Link.asWritten 5 = some r ∧ r.error = .NONE ∧ r.out = 0) := by
  have hs : (freeSurface uno Link.asWritten ⟨7, ⟨3, 4⟩⟩).map (fun r => r.error)
      = some .NONE := by decide
  have hf : (freeFont uno Link.asWritten 5).map (fun r => r.error) = some .NONE := by decide
  obtain ⟨⟨r, hr⟩, hall, ⟨q, hq⟩, hallq⟩ :=
    free_resets_handle uno Link.asWritten ⟨7, ⟨3, 4⟩⟩ 5
  rw [hr] at hs
  rw [hq] at hf
  simp only [Option.map_some', Option.some.injEq] at hs hf
  exact ⟨⟨r, hr, hs, hall r hr hs⟩, ⟨q, hq, hf, hallq q hq hf⟩⟩

/-- C5: with a null `sourceRegion` and a null `targetDestination`,
`blitSurface` hands the encoder the region origin (0, 0), the region area of
the source surface and the destination (0, 0), after the opcode and the two
IDs; `render` hands it the same with the rendered surface's own area. -/
theorem null_region_and_destination_default (m : Machine) (link : Link)
    (source target : Surface) :
    blitArguments source target none none =
      [.int Code.BLIT_SURFACE, .int source.ID, .int target.ID, .int 0, .int 0,
       .int source.area.width, .int source.area.height, .int 0, .int 0] ∧
    blitSurface m link source target none none =
      transmit m link "%c%u%u%u%u%u%u%u%u".toList
        [.int Code.BLIT_SURFACE, .int source.ID, .int target.ID, .int 0, .int 0,
         .int source.area.width, .int source.area.height, .int 0, .int 0] ∧
    renderArguments source none none =
      [.int Code.RENDER, .int source.ID, .int 0, .int 0,
       .int source.area.width, .int source.area.height, .int 0, .int 0] ∧
    render m link source none none =
      transmit m link "%c%u%u%u%u%u%u%u".toList
        [.int Code.RENDER, .int source.ID, .int 0, .int 0,
         .int source.area.width, .int source.area.height, .int 0, .int 0] := by
  exact ⟨rfl, rfl, rfl, rfl⟩

set_option maxRecDepth 100000 in
/-- C6, the code at a failing input: the packet of `createTextSurface` for a
text of 130 characters is 139 bytes long, more than 128; handed to `transmit`
on the Uno with the link as written, the result is `Error::NONE`, not
`PACKET_OVERFLOW`, the capacity is still 2, the buffer holds the opcode and a
NUL, and the bytes handed to the link start with these two bytes. -/
theorem transmit_truncates_oversized_packet :
    (vformat "%c%c%u%s%c%c%c%c".toList
      [.int Code.CREATE_TEXT_SURFACE, .int 3, .int 130, .str longText,
       .int 255, .int 0, .int 0, .int 255]).length = 139 ∧
    (transmit uno Link.asWritten "%c%c%u%s%c%c%c%c".toList
      [.int Code.CREATE_TEXT_SURFACE, .int 3, .int 130, .str longText,
       .int 255, .int 0, .int 0, .int 255]).map
      (fun t => (t.error, t.capacity, t.packet)) = some (.NONE, 2, [0x61, 0]) ∧
    (transmit uno Link.asWritten "%c%c%u%s%c%c%c%c".toList
      [.int Code.CREATE_TEXT_SURFACE, .int 3, .int 130, .str longText,
       .int 255, .int 0, .int 0, .int 255]).map
      (fun t => t.sent.take 2) = some [0x61, 0] := by
  refine ⟨by decide, by decide, ?_⟩
  rw [transmit_of_ready uno Link.asWritten _ _ (by decide) rfl rfl]
  have hp : (vformat "%c%c%u%s%c%c%c%c".toList
      [.int Code.CREATE_TEXT_SURFACE, .int 3, .int 130, .str longText,
       .int 255, .int 0, .int 0, .int 255]).take 1 ++ [0] = [0x61, 0] := by decide
  rw [hp]
  simp only [Option.map_some']
  rw [uno_sendLoop_take_two]

/-- C7, the code at a failing input: the packet of `freeSurface` for surface 7
is the two bytes `6F 37`, well within the cap; `freeSurface` on the Uno with
the link as written returns `Error::NONE` with the capacity still 2 (no
doubling took place), the buffer holding `6F 00`, and the bytes handed to the
link starting with `6F 00`, not with the packet. -/
theorem transmit_never_doubles_capacity :
    vformat "%c%u".toList [.int Code.FREE_SURFACE, .int 7] = [0x6F, 0x37] ∧
    (freeSurface uno Link.asWritten ⟨7, ⟨3, 4⟩⟩).map
      (fun r => (r.error, r.trace.capacity, r.trace.packet)) = some (.NONE, 2, [0x6F, 0]) ∧
    (freeSurface uno Link.asWritten ⟨7, ⟨3, 4⟩⟩).map
      (fun r => r.trace.sent.take 2) = some [0x6F, 0] := by
  refine ⟨by decide, by decide, ?_⟩
  unfold freeSurface
  rw [transmit_of_ready uno Link.asWritten _ _ (by decide) rfl rfl]
  have hp : (vformat "%c%u".toList [.int Code.FREE_SURFACE, .int (7 : Nat)]).take 1 ++ [0]
      = [0x6F, 0] := by decide
  simp only [hp]
  rw [if_neg (by decide)]
  simp only [Option.map_some']
  rw [uno_sendLoop_take_two]

/-- C8: `transcieve` always returns, its `transmit` step being the call of
cpp 190; if that step returns an error other than `NONE`, `transcieve`
returns the same error, `receive` is not called and the response buffer is as
it was; if the step returns `NONE`, `receive` is called once with the given
size and `transcieve` returns what `receive` returns. -/
theorem transcieve_short_circuits (m : Machine) (link : Link) (buffer : List Nat)
    (bufferSize : Nat) (format : List Char) (arguments : List Arg) :
    (∃ x, transcieve m link buffer bufferSize format arguments = some x) ∧
    ∀ x, transcieve m link buffer bufferSize format arguments = some x →
      transmit m link format (Arg.int m.vaList :: m.beyond) = some x.transmitted ∧
      (x.transmitted.error ≠ .NONE →
        x.error = x.transmitted.error ∧ x.receives = [] ∧ x.buffer = buffer) ∧
      (x.transmitted.error = .NONE →
        x.error = (receive buffer bufferSize).1 ∧ x.receives = [bufferSize] ∧
        x.buffer = (receive buffer bufferSize).2) := by
  refine ⟨transcieve_returns m link buffer bufferSize format arguments, ?_⟩
  intro x hx
  obtain ⟨ht, hcases⟩ := transcieve_cases m link buffer bufferSize format arguments x hx
  refine ⟨ht, ?_, ?_⟩
  · intro hne
    rcases hcases with ⟨_, h⟩ | ⟨he, _⟩
    · exact h
    · exact absurd he hne
  · intro he
    rcases hcases with ⟨hne, _⟩ | ⟨_, h⟩
    · exact absurd he hne
    · exact h

/-- C8, witness: on a link where no acknowledgement arrives the `transmit`
step returns `RETRIES_EXCEEDED`, and so does `transcieve`, without a call of
`receive` and with the buffer `09 09` untouched; on the link as written the
step returns `NONE` and `transcieve` returns the `NONE` of `receive`, called
once for 2 bytes. -/
theorem transcieve_short_circuits_witness :
    (∃ x, transcieve uno Link.unacknowledging [9, 9] 2 "%c%u%u".toList
        [.int Code.CREATE_SURFACE, .int 100, .int 50] = some x ∧
      x.transmitted.error = .RETRIES_EXCEEDED ∧ x.error = .RETRIES_EXCEEDED ∧
      x.receives = [] ∧ x.buffer = [9, 9]) ∧
    (∃ x, transcieve uno Link.asWritten [9, 9] 2 "%c%u%u".toList
        [.int Code.CREATE_SURFACE, .int 100, .int 50] = some x ∧
      x.transmitted.error = .NONE ∧ x.error = .NONE ∧ x.receives = [2]) := by
  have h1 : (transcieve uno Link.unacknowledging [9, 9] 2 "%c%u%u".toList
      [.int Code.CREATE_SURFACE, .int 100, .int 50]).map (fun x => x.transmitted.error)
      = some .RETRIES_EXCEEDED := by decide
  have h2 : (transcieve uno Link.asWritten [9, 9] 2 "%c%u%u".toList
      [.int Code.CREATE_SURFACE, .int 100, .int 50]).map (fun x => x.transmitted.error)
      = some .NONE := by decide
  obtain ⟨⟨x, hx⟩, hall⟩ := transcieve_short_circuits uno Link.unacknowledging [9, 9] 2
    "%c%u%u".toList [.int Code.CREATE_SURFACE, .int 100, .int 50]
  obtain ⟨⟨y, hy⟩, hally⟩ := transcieve_short_circuits uno Link.asWritten [9, 9] 2
    "%c%u%u".toList [.int Code.CREATE_SURFACE, .int 100, .int 50]
  rw [hx] at h1
  rw [hy] at h2
  simp only [Option.map_some', Option.some.injEq] at h1 h2
  obtain ⟨_, hfail, _⟩ := hall x hx
  obtain ⟨_, _, hok⟩ := hally y hy
  have hf := hfail (by rw [h1]; decide)
  have ho := hok h2
  refine ⟨⟨x, hx, h1, ?_, hf.2.1, hf.2.2⟩, ⟨y, hy, h2, ?_, ho.2.1⟩⟩
  · rw [hf.1, h1]
  · rw [ho.1]
    rfl

/-- C9: a board that is present and shows no ready signal in any of the 100
polls makes `awaitReady` return `UNRESPONSIVE`; and whenever `awaitReady`
returns an error other than `NONE`, `transmit`, `transcieve` and every façade
command return that same error, no byte is handed to the link, and `receive`
is not called. -/
theorem failed_gate_stops_every_exchange (m : Machine) (link : Link) :
    (link.absent = false → (∀ i, i < 100 → link.ready i = false) →
      (awaitReady link).error = .UNRESPONSIVE) ∧
    ((awaitReady link).error ≠ .NONE →
      (∀ format arguments, (transmit m link format arguments).map
        (fun t => (t.error, t.sent)) = some ((awaitReady link).error, [])) ∧
      (∀ buffer bufferSize format arguments,
        (transcieve m link buffer bufferSize format arguments).map
        (fun x => (x.error, x.transmitted.sent, x.receives))
          = some ((awaitReady link).error, [], [])) ∧
      (∀ connected response, (displayConnected m link connected response).map
        (fun r => (r.error, r.trace.transmitted.sent, r.trace.receives))
          = some ((awaitReady link).error, [], [])) ∧
      (∀ font name size response, (loadFont m link font name size response).map
        (fun r => (r.error, r.trace.transmitted.sent, r.trace.receives))
          = some ((awaitReady link).error, [], [])) ∧
      (∀ surface area response, (createSurface m link surface area response).map
        (fun r => (r.error, r.trace.transmitted.sent, r.trace.receives))
          = some ((awaitReady link).error, [], [])) ∧
      (∀ surface font text colour response,
        (createTextSurface m link surface font text colour response).map
        (fun r => (r.error, r.trace.transmitted.sent, r.trace.receives))
          = some ((awaitReady link).error, [], [])) ∧
      (∀ font, (freeFont m link font).map
        (fun r => (r.error, r.trace.sent)) = some ((awaitReady link).error, [])) ∧
      (∀ surface, (freeSurface m link surface).map
        (fun r => (r.error, r.trace.sent)) = some ((awaitReady link).error, [])) ∧
      (∀ source target sourceRegion targetDestination,
        (blitSurface m link source target sourceRegion targetDestination).map
        (fun t => (t.error, t.sent)) = some ((awaitReady link).error, [])) ∧
      (∀ surface point colour, (drawPoint m link surface point colour).map
        (fun t => (t.error, t.sent)) = some ((awaitReady link).error, [])) ∧
      (∀ surface line colour, (drawLine m link surface line colour).map
        (fun t => (t.error, t.sent)) = some ((awaitReady link).error, [])) ∧
      (∀ surface box colour fill, (drawBox m link surface box colour fill).map
        (fun t => (t.error, t.sent)) = some ((awaitReady link).error, [])) ∧
      (∀ surface sourceRegion targetDestination,
        (render m link surface sourceRegion targetDestination).map
        (fun t => (t.error, t.sent)) = some ((awaitReady link).error, [])) ∧
      (clear m link).map (fun t => (t.error, t.sent)) = some ((awaitReady link).error, []) ∧
      (update m link).map (fun t => (t.error, t.sent)) = some ((awaitReady link).error, []) ∧
      (reset m link).map (fun t => (t.error, t.sent)) = some ((awaitReady link).error, [])) := by
  constructor
  · intro habsent hnever
    unfold awaitReady
    rw [habsent]
    simp only [Bool.false_eq_true, if_false]
    rw [pollLoop_never link 100 0 (fun j _ hj => hnever j (by omega))]
  · intro h
    have hset : (awaitReady link).error.isSet = true := (isSet_iff _).mpr h
    have ht : ∀ format arguments, (transmit m link format arguments).map
        (fun t => (t.error, t.sent)) = some ((awaitReady link).error, []) := by
      intro format arguments
      rw [transmit_of_not_ready m link format arguments h]
      rfl
    refine ⟨ht, ?_, ?_, ?_, ?_, ?_, ?_, ?_, ?_, ?_, ?_, ?_, ?_, ?_, ?_, ?_⟩
    · intro buffer bufferSize format arguments
      rw [transcieve_of_not_ready m link buffer bufferSize format arguments h]
      rfl
    · intro connected response
      unfold displayConnected
      rw [transcieve_of_not_ready m link _ _ _ _ h]
      simp only [hset, if_true, Option.map_some']
    · intro font name size response
      unfold loadFont
      rw [transcieve_of_not_ready m link _ _ _ _ h]
      simp only [hset, if_true, Option.map_some']
    · intro surface area response
      unfold createSurface
      rw [transcieve_of_not_ready m link _ _ _ _ h]
      simp only [hset, if_true, Option.map_some']
    · intro surface font text colour response
      unfold createTextSurface
      simp only
      rw [transcieve_of_not_ready m link _ _ _ _ h]
      simp only [hset, if_true, Option.map_some']
    · intro font
      unfold freeFont
      rw [transmit_of_not_ready m link _ _ h]
      simp only [hset, if_true, Option.map_some']
    · intro surface
      unfold freeSurface
      rw [transmit_of_not_ready m link _ _ h]
      simp only [hset, if_true, Option.map_some']
    · intro source target sourceRegion targetDestination
      exact ht _ _
    · intro surface point colour
      exact ht _ _
    · intro surface line colour
      exact ht _ _
    · intro surface box colour fill
      exact ht _ _
    · intro surface sourceRegion targetDestination
      exact ht _ _
    · exact ht _ _
    · exact ht _ _
    · exact ht _ _

/-- C9, witness: on a present board that never signals ready, `awaitReady`
returns `UNRESPONSIVE` and so do `transmit`, `createSurface` and `drawPoint`
on the Uno, with no byte handed to the link. -/
theorem failed_gate_stops_every_exchange_witness :
    Link.neverReady.absent = false ∧ (∀ i, i < 100 → Link.neverReady.ready i = false) ∧
    (awaitReady Link.neverReady).error = .UNRESPONSIVE ∧
    (transmit uno Link.neverReady "%c".toList [.int Code.CLEAR]).map
      (fun t => (t.error, t.sent)) = some (.UNRESPONSIVE, []) ∧
    (createSurface uno Link.neverReady ⟨0, ⟨0, 0⟩⟩ ⟨100, 50⟩ [0, 7]).map
      (fun r => (r.error, r.trace.transmitted.sent, r.trace.receives))
        = some (.UNRESPONSIVE, [], []) ∧
    (drawPoint uno Link.neverReady ⟨7, ⟨3, 4⟩⟩ ⟨1, 2⟩ ⟨255, 0, 0, 255⟩).map
      (fun t => (t.error, t.sent)) = some (.UNRESPONSIVE, []) := by
  have hun : (awaitReady Link.neverReady).error = .UNRESPONSIVE :=
    (failed_gate_stops_every_exchange uno Link.neverReady).1 rfl (fun _ _ => rfl)
  have hne : (awaitReady Link.neverReady).error ≠ .NONE := by
    rw [hun]
    decide
  have hall := (failed_gate_stops_every_exchange uno Link.neverReady).2 hne
  rw [hun] at hall
  exact ⟨rfl, fun _ _ => rfl, hun, hall.1 _ _, hall.2.2.2.2.1 _ _ _,
    hall.2.2.2.2.2.2.2.2.2.1 _ _ _⟩

/-- C10: `awaitReady` returns `NOT_CONNECTED` without polling if the board is
absent; otherwise, if poll `k` among the first 100 is the first to see the
ready signal, it returns `NONE` after exactly `k + 1` polls; otherwise, if
none of the first 100 polls sees it, it returns `UNRESPONSIVE` after exactly
100 polls; and it never makes more than 100 polls. -/
theorem awaitReady_result (link : Link) :
    (link.absent = true → awaitReady link = { error := .NOT_CONNECTED, polls := 0 }) ∧
    (link.absent = false → ∀ k, k < 100 → link.ready k = true →
      (∀ j, j < k → link.ready j = false) →
      awaitReady link = { error := .NONE, polls := k + 1 }) ∧
    (link.absent = false → (∀ j, j < 100 → link.ready j = false) →
      awaitReady link = { error := .UNRESPONSIVE, polls := 100 }) ∧
    (awaitReady link).polls ≤ 100 := by
  refine ⟨?_, ?_, ?_, ?_⟩
  · intro habsent
    unfold awaitReady
    rw [habsent]
    rfl
  · intro habsent k hk hready hbefore
    unfold awaitReady
    rw [habsent]
    simp only [Bool.false_eq_true, if_false]
    rw [pollLoop_first link 100 0 k hk (by simpa using hready)
      (fun j hj => by simpa using hbefore j hj)]
    simp
  · intro habsent hnever
    unfold awaitReady
    rw [habsent]
    simp only [Bool.false_eq_true, if_false]
    rw [pollLoop_never link 100 0 (fun j _ hj => hnever j (by omega))]
  · unfold awaitReady
    split
    · exact Nat.zero_le _
    · have := pollLoop_polls_le link 100 0
      omega

/-- C10, witness: an unplugged board gives `NOT_CONNECTED` with no poll, a
board first ready at poll 3 gives `NONE` after 4 polls, a board never ready
gives `UNRESPONSIVE` after 100 polls, and the link as the source is written
gives `NONE` after 1 poll. -/
theorem awaitReady_result_witness :
    awaitReady Link.unplugged = { error := .NOT_CONNECTED, polls := 0 } ∧
    awaitReady Link.readyAtThree = { error := .NONE, polls := 4 } ∧
    awaitReady Link.neverReady = { error := .UNRESPONSIVE, polls := 100 } ∧
    awaitReady Link.asWritten = { error := .NONE, polls := 1 } :=
  ⟨(awaitReady_result Link.unplugged).1 rfl,
   (awaitReady_result Link.readyAtThree).2.1 rfl 3 (by decide) rfl
     (fun j hj => by
       have : j = 0 ∨ j = 1 ∨ j = 2 := by omega
       rcases this with h | h | h <;> subst h <;> rfl),
   (awaitReady_result Link.neverReady).2.2.1 rfl (fun _ _ => rfl),
   (awaitReady_result Link.asWritten).2.1 rfl 0 (by decide) rfl
     (fun _ hj => absurd hj (by omega))⟩

/-- C11: each of `displayConnected`, `loadFont`, `createSurface`,
`createTextSurface`, `freeFont` and `freeSurface` always returns; the `Error`
it returns is the one its `transcieve` or `transmit` call returned; and when
that `Error` is not `NONE` the reference parameter (`connected`, `font`,
`surface`) has the value it had before the call. -/
theorem failure_leaves_output_unchanged (m : Machine) (link : Link) :
    (∀ connected response, ∃ r, displayConnected m link connected response = some r ∧
      transcieve m link response 1 "%c".toList [.int Code.DISPLAY_CONNECTED] = some r.trace ∧
      r.error = r.trace.error ∧ (r.error ≠ .NONE → r.out = connected)) ∧
    (∀ font name size response, ∃ r, loadFont m link font name size response = some r ∧
      transcieve m link response 1 "%c%s%c".toList
        [.int Code.LOAD_FONT, .str name, .int size] = some r.trace ∧
      r.error = r.trace.error ∧ (r.error ≠ .NONE → r.out = font)) ∧
    (∀ surface area response, ∃ r, createSurface m link surface area response = some r ∧
      transcieve m link response 2 "%c%u%u".toList
        [.int Code.CREATE_SURFACE, .int area.width, .int area.height] = some r.trace ∧
      r.error = r.trace.error ∧ (r.error ≠ .NONE → r.out = surface)) ∧
    (∀ surface font text colour response,
      ∃ r, createTextSurface m link surface font text colour response = some r ∧
      transcieve m link response 4 "%c%c%u%s%c%c%c%c".toList
        [.int Code.CREATE_TEXT_SURFACE, .int font, .int (strlen text % 65536), .str text,
         .int colour.red, .int colour.green, .int colour.blue, .int colour.alpha]
        = some r.trace ∧
      r.error = r.trace.error ∧ (r.error ≠ .NONE → r.out = surface)) ∧
    (∀ font, ∃ r, freeFont m link font = some r ∧
      transmit m link "%c%c".toList [.int Code.FREE_FONT, .int font] = some r.trace ∧
      r.error = r.trace.error ∧ (r.error ≠ .NONE → r.out = font)) ∧
    (∀ surface, ∃ r, freeSurface m link surface = some r ∧
      transmit m link "%c%u".toList [.int Code.FREE_SURFACE, .int surface.ID] = some r.trace ∧
      r.error = r.trace.error ∧ (r.error ≠ .NONE → r.out = surface)) := by
  refine ⟨?_, ?_, ?_, ?_, ?_, ?_⟩
  · intro connected response
    obtain ⟨x, hx⟩ := transcieve_returns m link response 1 "%c".toList
      [.int Code.DISPLAY_CONNECTED]
    unfold displayConnected
    rw [hx]
    dsimp only
    by_cases hset : x.error.isSet = true
    · rw [if_pos hset]
      exact ⟨_, rfl, rfl, rfl, fun _ => rfl⟩
    · rw [if_neg hset]
      have hnone : x.error = .NONE := by
        by_contra hne
        exact hset ((isSet_iff _).mpr hne)
      exact ⟨_, rfl, rfl, hnone.symm, fun h => absurd rfl h⟩
  · intro font name size response
    obtain ⟨x, hx⟩ := transcieve_returns m link response 1 "%c%s%c".toList
      [.int Code.LOAD_FONT, .str name, .int size]
    unfold loadFont
    rw [hx]
    dsimp only
    by_cases hset : x.error.isSet = true
    · rw [if_pos hset]
      exact ⟨_, rfl, rfl, rfl, fun _ => rfl⟩
    · rw [if_neg hset]
      have hnone : x.error = .NONE := by
        by_contra hne
        exact hset ((isSet_iff _).mpr hne)
      exact ⟨_, rfl, rfl, hnone.symm, fun h => absurd rfl h⟩
  · intro surface area response
    obtain ⟨x, hx⟩ := transcieve_returns m link response 2 "%c%u%u".toList
      [.int Code.CREATE_SURFACE, .int area.width, .int area.height]
    unfold createSurface
    rw [hx]
    dsimp only
    by_cases hset : x.error.isSet = true
    · rw [if_pos hset]
      exact ⟨_, rfl, rfl, rfl, fun _ => rfl⟩
    · rw [if_neg hset]
      have hnone : x.error = .NONE := by
        by_contra hne
        exact hset ((isSet_iff _).mpr hne)
      exact ⟨_, rfl, rfl, hnone.symm, fun h => absurd rfl h⟩
  · intro surface font text colour response
    obtain ⟨x, hx⟩ := transcieve_returns m link response 4 "%c%c%u%s%c%c%c%c".toList
      [.int Code.CREATE_TEXT_SURFACE, .int font, .int (strlen text % 65536), .str text,
       .int colour.red, .int colour.green, .int colour.blue, .int colour.alpha]
    unfold createTextSurface
    dsimp only
    rw [hx]
    dsimp only
    by_cases hset : x.error.isSet = true
    · rw [if_pos hset]
      exact ⟨_, rfl, rfl, rfl, fun _ => rfl⟩
    · rw [if_neg hset]
      have hnone : x.error = .NONE := by
        by_contra hne
        exact hset ((isSet_iff _).mpr hne)
      exact ⟨_, rfl, rfl, hnone.symm, fun h => absurd rfl h⟩
  · intro font
    obtain ⟨t, ht⟩ := transmit_returns m link "%c%c".toList [.int Code.FREE_FONT, .int font]
    unfold freeFont
    rw [ht]
    dsimp only
    by_cases hset : t.error.isSet = true
    · rw [if_pos hset]
      exact ⟨_, rfl, rfl, rfl, fun _ => rfl⟩
    · rw [if_neg hset]
      have hnone : t.error = .NONE := by
        by_contra hne
        exact hset ((isSet_iff _).mpr hne)
      exact ⟨_, rfl, rfl, hnone.symm, fun h => absurd rfl h⟩
  · intro surface
    obtain ⟨t, ht⟩ := transmit_returns m link "%c%u".toList
      [.int Code.FREE_SURFACE, .int surface.ID]
    unfold freeSurface
    rw [ht]
    dsimp only
    by_cases hset : t.error.isSet = true
    · rw [if_pos hset]
      exact ⟨_, rfl, rfl, rfl, fun _ => rfl⟩
    · rw [if_neg hset]
      have hnone : t.error = .NONE := by
        by_contra hne
        exact hset ((isSet_iff _).mpr hne)
      exact ⟨_, rfl, rfl, hnone.symm, fun h => absurd rfl h⟩

/-- C11, witness: on a board that never signals ready, `createSurface` on the
Uno returns `UNRESPONSIVE` and leaves the surface `{5, {3, 4}}` as it was; on
a link without acknowledgement `freeSurface` returns `RETRIES_EXCEEDED` and
leaves the surface as it was, ID included. -/
theorem failure_leaves_output_unchanged_witness :
    (∃ r, createSurface uno Link.neverReady ⟨5, ⟨3, 4⟩⟩ ⟨100, 50⟩ [0, 7] = some r ∧
      r.error = .UNRESPONSIVE ∧ r.error ≠ .NONE ∧ r.out = ⟨5, ⟨3, 4⟩⟩) ∧
    (∃ r, freeSurface uno Link.unacknowledging ⟨5, ⟨3, 4⟩⟩ = some r ∧
      r.error = .RETRIES_EXCEEDED ∧ r.error ≠ .NONE ∧ r.out = ⟨5, ⟨3, 4⟩⟩) := by
  have h1 : (createSurface uno Link.neverReady ⟨5, ⟨3, 4⟩⟩ ⟨100, 50⟩ [0, 7]).map
      (fun r => r.error) = some .UNRESPONSIVE := by decide
  have h2 : (freeSurface uno Link.unacknowledging ⟨5, ⟨3, 4⟩⟩).map
      (fun r => r.error) = some .RETRIES_EXCEEDED := by decide
  obtain ⟨r, hr, _, _, hout⟩ :=
    (failure_leaves_output_unchanged uno Link.neverReady).2.2.1 ⟨5, ⟨3, 4⟩⟩ ⟨100, 50⟩ [0, 7]
  obtain ⟨q, hq, _, _, hqout⟩ :=
    (failure_leaves_output_unchanged uno Link.unacknowledging).2.2.2.2.2 ⟨5, ⟨3, 4⟩⟩
  rw [hr] at h1
  rw [hq] at h2
  simp only [Option.map_some', Option.some.injEq] at h1 h2
  have hn1 : r.error ≠ .NONE := by rw [h1]; decide
  have hn2 : q.error ≠ .NONE := by rw [h2]; decide
  exact ⟨⟨r, hr, h1, hn1, hout hn1⟩, ⟨q, hq, h2, hn2, hqout hn2⟩⟩

/-- C12, the code at a failing input: the default argument `Colour{0, 0, 0}`
has alpha 0, not 255, and the colour bytes formatted for `drawPoint` on
surface 7 at (1, 2) without a colour are `00 00 00 00`, not `00 00 00 FF`. -/
theorem default_colour_has_alpha_zero :
    defaultColour = { red := 0, green := 0, blue := 0, alpha := 0 } ∧
    defaultColour.alpha ≠ 255 ∧
    vformat "%c%u%u%u%c%c%c%c".toList
      [.int Code.DRAW_POINT, .int 7, .int 1, .int 2,
       .int defaultColour.red, .int defaultColour.green, .int defaultColour.blue,
       .int defaultColour.alpha] = [0x80, 55, 49, 50, 0, 0, 0, 0] := by
  decide

/-- C13, the code at a failing input: `CREATE_TEXT_SURFACE` and `BLIT_SURFACE`
are both `0x61`, so the fifteen values of `Code` are not pairwise distinct
(the other fourteen are), and the formatted requests of `createTextSurface`
and of `blitSurface` start with the same byte. -/
theorem createTextSurface_shares_opcode_with_blitSurface :
    Code.CREATE_TEXT_SURFACE = Code.BLIT_SURFACE ∧
    ¬ [Code.RESET, Code.RETRANSMIT, Code.DISPLAY_CONNECTED, Code.LOAD_FONT, Code.FREE_FONT,
       Code.CREATE_SURFACE, Code.CREATE_TEXT_SURFACE, Code.BLIT_SURFACE, Code.FREE_SURFACE,
       Code.DRAW_POINT, Code.DRAW_LINE, Code.DRAW_BOX, Code.RENDER, Code.CLEAR,
       Code.UPDATE].Nodup ∧
    [Code.RESET, Code.RETRANSMIT, Code.DISPLAY_CONNECTED, Code.LOAD_FONT, Code.FREE_FONT,
     Code.CREATE_SURFACE, Code.BLIT_SURFACE, Code.FREE_SURFACE,
     Code.DRAW_POINT, Code.DRAW_LINE, Code.DRAW_BOX, Code.RENDER, Code.CLEAR,
     Code.UPDATE].Nodup ∧
    (vformat "%c%c%u%s%c%c%c%c".toList
      [.int Code.CREATE_TEXT_SURFACE, .int 3, .int 2, .str [72, 105],
       .int 255, .int 0, .int 0, .int 255]).head? = some 0x61 ∧
    (vformat "%c%u%u%u%u%u%u%u%u".toList
      (blitArguments ⟨1, ⟨80, 60⟩⟩ ⟨2, ⟨80, 60⟩⟩ none none)).head? = some 0x61 := by
  decide

/-- C17: `drawBox` with `fill = true` gives the same result (packet, bytes
handed to the link, `Error`) as with `fill = false`; `drawBox` and `drawLine`
call `transmit` with the same format string, and for a line from the box's
origin to the point (width, height) the two formatted requests agree after
the opcode byte. -/
theorem drawBox_does_not_transmit_fill (m : Machine) (link : Link) (surface : Surface)
    (box : Box) (colour : Colour) :
    drawBox m link surface box colour true = drawBox m link surface box colour false ∧
    (∀ fill, drawBox m link surface box colour fill =
      transmit m link "%c%u%u%u%u%u%c%c%c%c".toList
        [.int Code.DRAW_BOX, .int surface.ID, .int box.origin.x, .int box.origin.y,
         .int box.area.width, .int box.area.height,
         .int colour.red, .int colour.green, .int colour.blue, .int colour.alpha]) ∧
    drawLine m link surface ⟨box.origin, ⟨box.area.width, box.area.height⟩⟩ colour =
      transmit m link "%c%u%u%u%u%u%c%c%c%c".toList
        [.int Code.DRAW_LINE, .int surface.ID, .int box.origin.x, .int box.origin.y,
         .int box.area.width, .int box.area.height,
         .int colour.red, .int colour.green, .int colour.blue, .int colour.alpha] ∧
    (vformat "%c%u%u%u%u%u%c%c%c%c".toList
        [.int Code.DRAW_BOX, .int surface.ID, .int box.origin.x, .int box.origin.y,
         .int box.area.width, .int box.area.height,
         .int colour.red, .int colour.green, .int colour.blue, .int colour.alpha]).tail =
      (vformat "%c%u%u%u%u%u%c%c%c%c".toList
        [.int Code.DRAW_LINE, .int surface.ID, .int box.origin.x, .int box.origin.y,
         .int box.area.width, .int box.area.height,
         .int colour.red, .int colour.green, .int colour.blue, .int colour.alpha]).tail :=
  ⟨rfl, fun _ => rfl, rfl, rfl⟩

/-- C18: `blitSurface` and `render` hand the encoder the given region and the
given destination unchanged when both pointers are non-null, without using
the surface's own area; with a null region and a given destination, the
default region and the given destination; with a given region and a null
destination, the given region and (0, 0). -/
theorem explicit_region_and_destination_pass_through (m : Machine) (link : Link)
    (source target : Surface) (region : Box) (destination : Point) :
    blitArguments source target (some region) (some destination) =
      [.int Code.BLIT_SURFACE, .int source.ID, .int target.ID,
       .int region.origin.x, .int region.origin.y,
       .int region.area.width, .int region.area.height,
       .int destination.x, .int destination.y] ∧
    blitArguments source target none (some destination) =
      [.int Code.BLIT_SURFACE, .int source.ID, .int target.ID, .int 0, .int 0,
       .int source.area.width, .int source.area.height,
       .int destination.x, .int destination.y] ∧
    blitArguments source target (some region) none =
      [.int Code.BLIT_SURFACE, .int source.ID, .int target.ID,
       .int region.origin.x, .int region.origin.y,
       .int region.area.width, .int region.area.height, .int 0, .int 0] ∧
    renderArguments source (some region) (some destination) =
      [.int Code.RENDER, .int source.ID,
       .int region.origin.x, .int region.origin.y,
       .int region.area.width, .int region.area.height,
       .int destination.x, .int destination.y] ∧
    renderArguments source none (some destination) =
      [.int Code.RENDER, .int source.ID, .int 0, .int 0,
       .int source.area.width, .int source.area.height,
       .int destination.x, .int destination.y] ∧
    renderArguments source (some region) none =
      [.int Code.RENDER, .int source.ID,
       .int region.origin.x, .int region.origin.y,
       .int region.area.width, .int region.area.height, .int 0, .int 0] ∧
    (∀ sourceRegion targetDestination,
      blitSurface m link source target sourceRegion targetDestination =
        transmit m link "%c%u%u%u%u%u%u%u%u".toList
          (blitArguments source target sourceRegion targetDestination)) ∧
    (∀ sourceRegion targetDestination,
      render m link source sourceRegion targetDestination =
        transmit m link "%c%u%u%u%u%u%u%u".toList
          (renderArguments source sourceRegion targetDestination)) :=
  ⟨rfl, rfl, rfl, rfl, rfl, rfl, fun _ _ => rfl, fun _ _ => rfl⟩

/-- C15, the code at a failing input: `clear()` on the Uno with the link as
written returns `Error::NONE` with the two-byte buffer `F1 00`, but its send
loop runs 63280 times, once for every address from the buffer up to the end
of the address space, not once per byte of the packet. -/
theorem send_loop_runs_past_the_packet :
    (clear uno Link.asWritten).map (fun t => (t.error, t.packet)) = some (.NONE, [0xF1, 0]) ∧
    (clear uno Link.asWritten).map (fun t => t.sent.length) = some 63280 ∧
    (63280 : Nat) = 2 ^ 16 - 0x08D0 ∧ 128 < (63280 : Nat) := by
  refine ⟨by decide, ?_, by decide, by decide⟩
  unfold clear
  rw [transmit_of_ready uno Link.asWritten _ _ (by decide) rfl rfl]
  simp only [Option.map_some']
  rw [sendLoop_length _ _ _ _ (Nat.mod_lt _ (Nat.two_pow_pos _))]
  decide

/-- C19, the code at a failing input: `displayConnected` on the Uno with the
link as written leaves `F2 00` in the buffer of `transmit` and hands the link
`F2 00` first, `F2` being the low byte of the `va_list`, where
`transmit("%c", DISPLAY_CONNECTED)` leaves and hands over `10 00`; and
`createSurface` for 100 by 50 and for 1 by 1 have the same `transmit` step. -/
theorem transcieve_does_not_forward_arguments :
    (displayConnected uno Link.asWritten false [1]).map
      (fun r => (r.error, r.trace.transmitted.packet)) = some (.NONE, [0xF2, 0]) ∧
    (displayConnected uno Link.asWritten false [1]).map
      (fun r => r.trace.transmitted.sent.take 2) = some [0xF2, 0] ∧
    (transmit uno Link.asWritten "%c".toList [.int Code.DISPLAY_CONNECTED]).map
      (fun t => (t.error, t.packet)) = some (.NONE, [0x10, 0]) ∧
    (transmit uno Link.asWritten "%c".toList [.int Code.DISPLAY_CONNECTED]).map
      (fun t => t.sent.take 2) = some [0x10, 0] ∧
    (createSurface uno Link.asWritten ⟨0, ⟨0, 0⟩⟩ ⟨100, 50⟩ [0, 7]).map
      (fun r => r.trace.transmitted) =
    (createSurface uno Link.asWritten ⟨0, ⟨0, 0⟩⟩ ⟨1, 1⟩ [0, 7]).map
      (fun r => r.trace.transmitted) := by
  refine ⟨by decide, ?_, by decide, ?_, rfl⟩
  · unfold displayConnected transcieve
    rw [transmit_of_ready uno Link.asWritten _ _ (by decide) rfl rfl]
    have hp : (vformat "%c".toList (Arg.int uno.vaList :: uno.beyond)).take 1 ++ [0]
        = [0xF2, 0] := by decide
    simp only [hp]
    rw [if_neg (by decide)]
    simp only [receive]
    rw [if_neg (by decide)]
    simp only [Option.map_some']
    rw [uno_sendLoop_take_two]
  · rw [transmit_of_ready uno Link.asWritten _ _ (by decide) rfl rfl]
    have hp : (vformat "%c".toList [.int Code.DISPLAY_CONNECTED]).take 1 ++ [0]
        = [0x10, 0] := by decide
    rw [hp]
    simp only [Option.map_some']
    rw [uno_sendLoop_take_two]

/-- C14: whatever the formatter returns, the encoding loop started at
capacity 2 ends within 7 attempts and a capacity it accepts is one of 2, 4,
8, 16, 32, 64, 128; at any capacity `vsnprintf` stores at least one byte and
at most `size` bytes; so every `transmit` returns with a capacity in that
list and a packet of at least 1 and at most 128 bytes that fits the capacity;
and when the format starts with `%c` and the first argument is an integer, as
in every façade command, the packet starts with that argument as a byte. -/
theorem packet_and_capacity_bounds (m : Machine) (link : Link) (format : List Char)
    (arguments : List Arg) :
    (∀ attempt : Nat → Int × List Nat, ∃ e, encodeLoop attempt 7 2 = some e ∧
      ∀ size buffer, e = .fitted size buffer → size ∈ [2, 4, 8, 16, 32, 64, 128]) ∧
    (∀ size, 0 < size → 1 ≤ (vsnprintf size format arguments).2.length ∧
      (vsnprintf size format arguments).2.length ≤ size) ∧
    (∃ t, transmit m link format arguments = some t ∧
      t.capacity ∈ [2, 4, 8, 16, 32, 64, 128] ∧
      1 ≤ t.packet.length ∧ t.packet.length ≤ t.capacity ∧ t.packet.length ≤ 128) ∧
    (∀ rest value others,
      ∃ t, transmit m link ('%' :: 'c' :: rest) (Arg.int value :: others) = some t ∧
        t.packet = [value % 256, 0]) := by
  refine ⟨?_, ?_, ?_, ?_⟩
  · intro attempt
    obtain ⟨e, he, hall⟩ := encodeLoop_from_two attempt
    exact ⟨e, he, fun size buffer h => (hall size buffer h).1⟩
  · intro size hsize
    exact vsnprintf_stored_length size format arguments hsize
  · obtain ⟨t, ht⟩ := transmit_returns m link format arguments
    obtain ⟨hc, hp⟩ := transmit_encoding m link format arguments t ht
    refine ⟨t, ht, ?_, ?_, ?_, ?_⟩
    · rw [hc]
      decide
    · rw [hp]
      simp
    · rw [hp, hc]
      simp only [List.length_append, List.length_take, List.length_cons, List.length_nil]
      omega
    · rw [hp]
      simp only [List.length_append, List.length_take, List.length_cons, List.length_nil]
      omega
  · intro rest value others
    obtain ⟨t, ht⟩ := transmit_returns m link ('%' :: 'c' :: rest) (Arg.int value :: others)
    obtain ⟨_, hp⟩ := transmit_encoding m link _ _ t ht
    refine ⟨t, ht, ?_⟩
    rw [hp, vformat]
    rfl

/-- C14, witness: with a formatter that refuses truncation the loop retries
once for the request of `freeSurface` on surface 7 and accepts the capacity 4;
with `vsnprintf`, `freeSurface` on the Uno ends at capacity 2 with the packet
`6F 00`. -/
theorem packet_and_capacity_bounds_witness :
    encodeLoop (refusingFormatter "%c%u".toList [.int Code.FREE_SURFACE, .int 7]) 7 2
      = some (.fitted 4 [0x6F, 0x37, 0]) ∧
    (4 : Nat) ∈ [2, 4, 8, 16, 32, 64, 128] ∧
    (∃ t, transmit uno Link.asWritten "%c%u".toList [.int Code.FREE_SURFACE, .int 7] = some t ∧
      t.packet = [0x6F, 0]) := by
  have h : encodeLoop (refusingFormatter "%c%u".toList [.int Code.FREE_SURFACE, .int 7]) 7 2
      = some (.fitted 4 [0x6F, 0x37, 0]) := by decide
  obtain ⟨e, he, hall⟩ :=
    (packet_and_capacity_bounds uno Link.asWritten "%c%u".toList
      [.int Code.FREE_SURFACE, .int 7]).1
      (refusingFormatter "%c%u".toList [.int Code.FREE_SURFACE, .int 7])
  rw [h] at he
  cases he
  exact ⟨h, hall 4 _ rfl,
    (packet_and_capacity_bounds uno Link.asWritten "%c%u".toList
      [.int Code.FREE_SURFACE, .int 7]).2.2.2 "%u".toList Code.FREE_SURFACE [.int 7]⟩

/-- The capacity and the packet `transmit` ends with depend on the format and
the arguments only, not on the machine or the link, and its `Error` does not
depend on the machine. -/
theorem transmit_encoding_determined (format : List Char) (arguments : List Arg) :
    (∀ m₁ m₂ link₁ link₂ t₁ t₂, transmit m₁ link₁ format arguments = some t₁ →
      transmit m₂ link₂ format arguments = some t₂ →
      t₁.packet = t₂.packet ∧ t₁.capacity = t₂.capacity) ∧
    (∀ m₁ m₂ link t₁ t₂, transmit m₁ link format arguments = some t₁ →
      transmit m₂ link format arguments = some t₂ → t₁.error = t₂.error) := by
  refine ⟨?_, ?_⟩
  · intro m₁ m₂ link₁ link₂ t₁ t₂ h₁ h₂
    obtain ⟨hc₁, hp₁⟩ := transmit_encoding m₁ link₁ format arguments t₁ h₁
    obtain ⟨hc₂, hp₂⟩ := transmit_encoding m₂ link₂ format arguments t₂ h₂
    exact ⟨by rw [hp₁, hp₂], by rw [hc₁, hc₂]⟩
  · intro m₁ m₂ link t₁ t₂ h₁ h₂
    rw [transmit_error m₁ link format arguments t₁ h₁,
      transmit_error m₂ link format arguments t₂ h₂]

/-- C20, counterexample: the areas (1, 23) and (12, 3) differ, yet the
formatted requests of `createSurface` for them are the same bytes
`60 31 32 33`, and so is everything `createSurface` hands to `transmit` on
the Uno; the same happens to `drawPoint` for the points (1, 23) and (12, 3). -/
theorem createSurface_requests_collide :
    ((1 : Nat), (23 : Nat)) ≠ (12, 3) ∧
    vformat "%c%u%u".toList [.int Code.CREATE_SURFACE, .int 1, .int 23]
      = [0x60, 0x31, 0x32, 0x33] ∧
    vformat "%c%u%u".toList [.int Code.CREATE_SURFACE, .int 12, .int 3]
      = [0x60, 0x31, 0x32, 0x33] ∧
    (createSurface uno Link.asWritten ⟨0, ⟨0, 0⟩⟩ ⟨1, 23⟩ [0, 7]).map
      (fun r => r.trace.transmitted) =
    (createSurface uno Link.asWritten ⟨0, ⟨0, 0⟩⟩ ⟨12, 3⟩ [0, 7]).map
      (fun r => r.trace.transmitted) ∧
    drawPoint uno Link.asWritten ⟨5, ⟨80, 60⟩⟩ ⟨1, 23⟩ ⟨255, 0, 0, 255⟩ =
      drawPoint uno Link.asWritten ⟨5, ⟨80, 60⟩⟩ ⟨12, 3⟩ ⟨255, 0, 0, 255⟩ := by
  refine ⟨by decide, by decide, by decide, rfl, ?_⟩
  exact transmit_congr uno Link.asWritten _ _ _ (by decide)

/-- C20, amended: the formatted request of `freeSurface` is different for
different IDs; for `createSurface`, `blitSurface`, `drawPoint`, `drawLine`,
`drawBox` and `render`, two tuples of unsigned arguments that differ and
whose fields, the last one apart, are written with the same number of
decimal digits in both, have different formatted requests. -/
theorem formatted_request_injective_for_equal_digit_counts :
    (∀ a b : Nat, a ≠ b →
      vformat "%c%u".toList [.int Code.FREE_SURFACE, .int a] ≠
      vformat "%c%u".toList [.int Code.FREE_SURFACE, .int b]) ∧
    (∀ a b : Rectangle, sameDigitCount a.width b.width → a ≠ b →
      vformat "%c%u%u".toList [.int Code.CREATE_SURFACE, .int a.width, .int a.height] ≠
      vformat "%c%u%u".toList [.int Code.CREATE_SURFACE, .int b.width, .int b.height]) ∧
    (∀ (s₁ t₁ s₂ t₂ : Surface) (r₁ r₂ : Box) (d₁ d₂ : Point),
      sameDigitCount s₁.ID s₂.ID → sameDigitCount t₁.ID t₂.ID →
      sameDigitCount r₁.origin.x r₂.origin.x → sameDigitCount r₁.origin.y r₂.origin.y →
      sameDigitCount r₁.area.width r₂.area.width →
      sameDigitCount r₁.area.height r₂.area.height → sameDigitCount d₁.x d₂.x →
      (s₁.ID, t₁.ID, r₁, d₁) ≠ (s₂.ID, t₂.ID, r₂, d₂) →
      vformat "%c%u%u%u%u%u%u%u%u".toList (blitArguments s₁ t₁ (some r₁) (some d₁)) ≠
      vformat "%c%u%u%u%u%u%u%u%u".toList (blitArguments s₂ t₂ (some r₂) (some d₂))) ∧
    (∀ (s₁ s₂ : Surface) (p₁ p₂ : Point) (c₁ c₂ : Colour),
      sameDigitCount s₁.ID s₂.ID → sameDigitCount p₁.x p₂.x →
      (s₁.ID, p₁) ≠ (s₂.ID, p₂) →
      vformat "%c%u%u%u%c%c%c%c".toList
        [.int Code.DRAW_POINT, .int s₁.ID, .int p₁.x, .int p₁.y,
         .int c₁.red, .int c₁.green, .int c₁.blue, .int c₁.alpha] ≠
      vformat "%c%u%u%u%c%c%c%c".toList
        [.int Code.DRAW_POINT, .int s₂.ID, .int p₂.x, .int p₂.y,
         .int c₂.red, .int c₂.green, .int c₂.blue, .int c₂.alpha]) ∧
    (∀ (s₁ s₂ : Surface) (l₁ l₂ : Line) (c₁ c₂ : Colour),
      sameDigitCount s₁.ID s₂.ID → sameDigitCount l₁.start.x l₂.start.x →
      sameDigitCount l₁.start.y l₂.start.y → sameDigitCount l₁.finish.x l₂.finish.x →
      (s₁.ID, l₁) ≠ (s₂.ID, l₂) →
      vformat "%c%u%u%u%u%u%c%c%c%c".toList
        [.int Code.DRAW_LINE, .int s₁.ID, .int l₁.start.x, .int l₁.start.y,
         .int l₁.finish.x, .int l₁.finish.y,
         .int c₁.red, .int c₁.green, .int c₁.blue, .int c₁.alpha] ≠
      vformat "%c%u%u%u%u%u%c%c%c%c".toList
        [.int Code.DRAW_LINE, .int s₂.ID, .int l₂.start.x, .int l₂.start.y,
         .int l₂.finish.x, .int l₂.finish.y,
         .int c₂.red, .int c₂.green, .int c₂.blue, .int c₂.alpha]) ∧
    (∀ (s₁ s₂ : Surface) (b₁ b₂ : Box) (c₁ c₂ : Colour),
      sameDigitCount s₁.ID s₂.ID → sameDigitCount b₁.origin.x b₂.origin.x →
      sameDigitCount b₁.origin.y b₂.origin.y → sameDigitCount b₁.area.width b₂.area.width →
      (s₁.ID, b₁) ≠ (s₂.ID, b₂) →
      vformat "%c%u%u%u%u%u%c%c%c%c".toList
        [.int Code.DRAW_BOX, .int s₁.ID, .int b₁.origin.x, .int b₁.origin.y,
         .int b₁.area.width, .int b₁.area.height,
         .int c₁.red, .int c₁.green, .int c₁.blue, .int c₁.alpha] ≠
      vformat "%c%u%u%u%u%u%c%c%c%c".toList
        [.int Code.DRAW_BOX, .int s₂.ID, .int b₂.origin.x, .int b₂.origin.y,
         .int b₂.area.width, .int b₂.area.height,
         .int c₂.red, .int c₂.green, .int c₂.blue, .int c₂.alpha]) ∧
    (∀ (s₁ s₂ : Surface) (r₁ r₂ : Box) (d₁ d₂ : Point),
      sameDigitCount s₁.ID s₂.ID →
      sameDigitCount r₁.origin.x r₂.origin.x → sameDigitCount r₁.origin.y r₂.origin.y →
      sameDigitCount r₁.area.width r₂.area.width →
      sameDigitCount r₁.area.height r₂.area.height → sameDigitCount d₁.x d₂.x →
      (s₁.ID, r₁, d₁) ≠ (s₂.ID, r₂, d₂) →
      vformat "%c%u%u%u%u%u%u%u".toList (renderArguments s₁ (some r₁) (some d₁)) ≠
      vformat "%c%u%u%u%u%u%u%u".toList (renderArguments s₂ (some r₂) (some d₂))) := by
  refine ⟨?_, ?_, ?_, ?_, ?_, ?_, ?_⟩
  · intro a b hne heq
    apply hne
    have h : Code.FREE_SURFACE % 256 :: (decimal a ++ []) =
        Code.FREE_SURFACE % 256 :: (decimal b ++ []) := heq
    exact decimal_cancel_at_end _ _ (List.cons.inj h).2
  · intro a b hw hne heq
    apply hne
    have h : Code.CREATE_SURFACE % 256 :: (decimal a.width ++ (decimal a.height ++ [])) =
        Code.CREATE_SURFACE % 256 :: (decimal b.width ++ (decimal b.height ++ [])) := heq
    obtain ⟨h1, h⟩ := decimal_append_cancel _ _ _ _ hw (List.cons.inj h).2
    have h2 := decimal_cancel_at_end _ _ h
    cases a
    cases b
    simp only at h1 h2
    rw [h1, h2]
  · intro s₁ t₁ s₂ t₂ r₁ r₂ d₁ d₂ hs ht hx hy hw hh hd hne heq
    apply hne
    have h : Code.BLIT_SURFACE % 256 :: (decimal s₁.ID ++ (decimal t₁.ID ++
        (decimal r₁.origin.x ++ (decimal r₁.origin.y ++ (decimal r₁.area.width ++
        (decimal r₁.area.height ++ (decimal d₁.x ++ (decimal d₁.y ++ [])))))))) =
      Code.BLIT_SURFACE % 256 :: (decimal s₂.ID ++ (decimal t₂.ID ++
        (decimal r₂.origin.x ++ (decimal r₂.origin.y ++ (decimal r₂.area.width ++
        (decimal r₂.area.height ++ (decimal d₂.x ++ (decimal d₂.y ++ [])))))))) := heq
    obtain ⟨h1, h⟩ := decimal_append_cancel _ _ _ _ hs (List.cons.inj h).2
    obtain ⟨h2, h⟩ := decimal_append_cancel _ _ _ _ ht h
    obtain ⟨h3, h⟩ := decimal_append_cancel _ _ _ _ hx h
    obtain ⟨h4, h⟩ := decimal_append_cancel _ _ _ _ hy h
    obtain ⟨h5, h⟩ := decimal_append_cancel _ _ _ _ hw h
    obtain ⟨h6, h⟩ := decimal_append_cancel _ _ _ _ hh h
    obtain ⟨h7, h⟩ := decimal_append_cancel _ _ _ _ hd h
    have h8 := decimal_cancel_at_end _ _ h
    obtain ⟨⟨x₁, y₁⟩, ⟨w₁, g₁⟩⟩ := r₁
    obtain ⟨⟨x₂, y₂⟩, ⟨w₂, g₂⟩⟩ := r₂
    cases d₁
    cases d₂
    simp only at h3 h4 h5 h6 h7 h8
    rw [h1, h2, h3, h4, h5, h6, h7, h8]
  · intro s₁ s₂ p₁ p₂ c₁ c₂ hs hx hne heq
    apply hne
    have h : Code.DRAW_POINT % 256 :: (decimal s₁.ID ++ (decimal p₁.x ++ (decimal p₁.y ++
        [c₁.red % 256, c₁.green % 256, c₁.blue % 256, c₁.alpha % 256]))) =
      Code.DRAW_POINT % 256 :: (decimal s₂.ID ++ (decimal p₂.x ++ (decimal p₂.y ++
        [c₂.red % 256, c₂.green % 256, c₂.blue % 256, c₂.alpha % 256]))) := heq
    obtain ⟨h1, h⟩ := decimal_append_cancel _ _ _ _ hs (List.cons.inj h).2
    obtain ⟨h2, h⟩ := decimal_append_cancel _ _ _ _ hx h
    have h3 := decimal_cancel_before_bytes _ _ _ _ _ _ _ _ _ _ h
    cases p₁
    cases p₂
    simp only at h2 h3
    rw [h1, h2, h3]
  · intro s₁ s₂ l₁ l₂ c₁ c₂ hs hx hy hfx hne heq
    apply hne
    have h : Code.DRAW_LINE % 256 :: (decimal s₁.ID ++ (decimal l₁.start.x ++
        (decimal l₁.start.y ++ (decimal l₁.finish.x ++ (decimal l₁.finish.y ++
        [c₁.red % 256, c₁.green % 256, c₁.blue % 256, c₁.alpha % 256]))))) =
      Code.DRAW_LINE % 256 :: (decimal s₂.ID ++ (decimal l₂.start.x ++
        (decimal l₂.start.y ++ (decimal l₂.finish.x ++ (decimal l₂.finish.y ++
        [c₂.red % 256, c₂.green % 256, c₂.blue % 256, c₂.alpha % 256]))))) := heq
    obtain ⟨h1, h⟩ := decimal_append_cancel _ _ _ _ hs (List.cons.inj h).2
    obtain ⟨h2, h⟩ := decimal_append_cancel _ _ _ _ hx h
    obtain ⟨h3, h⟩ := decimal_append_cancel _ _ _ _ hy h
    obtain ⟨h4, h⟩ := decimal_append_cancel _ _ _ _ hfx h
    have h5 := decimal_cancel_before_bytes _ _ _ _ _ _ _ _ _ _ h
    obtain ⟨⟨x₁, y₁⟩, ⟨u₁, v₁⟩⟩ := l₁
    obtain ⟨⟨x₂, y₂⟩, ⟨u₂, v₂⟩⟩ := l₂
    simp only at h2 h3 h4 h5
    rw [h1, h2, h3, h4, h5]
  · intro s₁ s₂ b₁ b₂ c₁ c₂ hs hx hy hw hne heq
    apply hne
    have h : Code.DRAW_BOX % 256 :: (decimal s₁.ID ++ (decimal b₁.origin.x ++
        (decimal b₁.origin.y ++ (decimal b₁.area.width ++ (decimal b₁.area.height ++
        [c₁.red % 256, c₁.green % 256, c₁.blue % 256, c₁.alpha % 256]))))) =
      Code.DRAW_BOX % 256 :: (decimal s₂.ID ++ (decimal b₂.origin.x ++
        (decimal b₂.origin.y ++ (decimal b₂.area.width ++ (decimal b₂.area.height ++
        [c₂.red % 256, c₂.green % 256, c₂.blue % 256, c₂.alpha % 256]))))) := heq
    obtain ⟨h1, h⟩ := decimal_append_cancel _ _ _ _ hs (List.cons.inj h).2
    obtain ⟨h2, h⟩ := decimal_append_cancel _ _ _ _ hx h
    obtain ⟨h3, h⟩ := decimal_append_cancel _ _ _ _ hy h
    obtain ⟨h4, h⟩ := decimal_append_cancel _ _ _ _ hw h
    have h5 := decimal_cancel_before_bytes _ _ _ _ _ _ _ _ _ _ h
    obtain ⟨⟨x₁, y₁⟩, ⟨w₁, g₁⟩⟩ := b₁
    obtain ⟨⟨x₂, y₂⟩, ⟨w₂, g₂⟩⟩ := b₂
    simp only at h2 h3 h4 h5
    rw [h1, h2, h3, h4, h5]
  · intro s₁ s₂ r₁ r₂ d₁ d₂ hs hx hy hw hh hd hne heq
    apply hne
    have h : Code.RENDER % 256 :: (decimal s₁.ID ++
        (decimal r₁.origin.x ++ (decimal r₁.origin.y ++ (decimal r₁.area.width ++
        (decimal r₁.area.height ++ (decimal d₁.x ++ (decimal d₁.y ++ []))))))) =
      Code.RENDER % 256 :: (decimal s₂.ID ++
        (decimal r₂.origin.x ++ (decimal r₂.origin.y ++ (decimal r₂.area.width ++
        (decimal r₂.area.height ++ (decimal d₂.x ++ (decimal d₂.y ++ []))))))) := heq
    obtain ⟨h1, h⟩ := decimal_append_cancel _ _ _ _ hs (List.cons.inj h).2
    obtain ⟨h3, h⟩ := decimal_append_cancel _ _ _ _ hx h
    obtain ⟨h4, h⟩ := decimal_append_cancel _ _ _ _ hy h
    obtain ⟨h5, h⟩ := decimal_append_cancel _ _ _ _ hw h
    obtain ⟨h6, h⟩ := decimal_append_cancel _ _ _ _ hh h
    obtain ⟨h7, h⟩ := decimal_append_cancel _ _ _ _ hd h
    have h8 := decimal_cancel_at_end _ _ h
    obtain ⟨⟨x₁, y₁⟩, ⟨w₁, g₁⟩⟩ := r₁
    obtain ⟨⟨x₂, y₂⟩, ⟨w₂, g₂⟩⟩ := r₂
    cases d₁
    cases d₂
    simp only at h3 h4 h5 h6 h7 h8
    rw [h1, h3, h4, h5, h6, h7, h8]

/-- C20, witness: the areas (100, 50) and (200, 50) differ and both widths
have three digits, so the formatted requests of `createSurface` differ; the
surfaces 7 and 8 give different formatted requests of `freeSurface`. -/
theorem formatted_request_injective_for_equal_digit_counts_witness :
    sameDigitCount 100 200 ∧ (⟨100, 50⟩ : Rectangle) ≠ ⟨200, 50⟩ ∧
    vformat "%c%u%u".toList [.int Code.CREATE_SURFACE, .int 100, .int 50] ≠
      vformat "%c%u%u".toList [.int Code.CREATE_SURFACE, .int 200, .int 50] ∧
    vformat "%c%u".toList [.int Code.FREE_SURFACE, .int 7] ≠
      vformat "%c%u".toList [.int Code.FREE_SURFACE, .int 8] :=
  ⟨by unfold sameDigitCount; decide, by decide,
   formatted_request_injective_for_equal_digit_counts.2.1 ⟨100, 50⟩ ⟨200, 50⟩
     (by unfold sameDigitCount; decide) (by decide),
   formatted_request_injective_for_equal_digit_counts.1 7 8 (by decide)⟩

end HDMIShield
